import Mathlib

/-!
Shallow embedding of the powermart-pk order/cart subsystem
(`src/services/order.service.ts` and the cart service) and proofs of the
spec's claims about it.

Modelling conventions:
* Database rows are Lean structures; tables are lists inside a `DB` record.
* `DOUBLE PRECISION` money columns are modelled as `ℚ`; `INTEGER` stock and
  quantity columns as `Int` (the schema has no non-negativity CHECK, and the
  Prisma `decrement` can drive a stock below zero).
* Row ids are `Nat`; Prisma's generated ids are modelled by a `nextId`
  counter in `DB`.
* Each service function becomes a pure function `DB → … → DB × Except Err α`
  returning the post-call state (errors thrown before any write leave the
  state unchanged; writes performed before a later throw are kept, exactly
  as in the sequential `await` structure of the source).
-/

namespace PowerMart

/-- `ProductStatus` enum from the Prisma schema. -/
inductive ProductStatus
  | DRAFT
  | ACTIVE
  | INACTIVE
deriving DecidableEq, Repr

/-- `OrderStatus` enum from the Prisma schema. -/
inductive OrderStatus
  | PENDING
  | CONFIRMED
  | SHIPPED
  | DELIVERED
  | CANCELLED
  | RETURNED
deriving DecidableEq, Repr

/-- A row of the `products` table (fields used by the order/cart flow).
`discount` is nullable; `deliveryCharge` is `NOT NULL DEFAULT 0`;
`stock` is a plain `INTEGER NOT NULL` with no non-negativity constraint. -/
structure Product where
  id : Nat
  shopId : Nat
  price : ℚ
  discount : Option ℚ
  deliveryCharge : ℚ
  stock : Int
  status : ProductStatus
deriving DecidableEq, Repr

/-- A row of the `product_variants` table. `priceDiff` is nullable. -/
structure ProductVariant where
  id : Nat
  productId : Nat
  priceDiff : Option ℚ
  stock : Int
deriving DecidableEq, Repr

/-- A row of the `order_addresses` table (only the fields the order flow reads). -/
structure OrderAddress where
  id : Nat
  userId : Nat
deriving DecidableEq, Repr

/-- A row of the `order_items` table. -/
structure OrderItemRow where
  productId : Nat
  shopId : Nat
  variantId : Option Nat
  quantity : Int
  unitPrice : ℚ
  deliveryCharge : ℚ
  totalPrice : ℚ
deriving DecidableEq, Repr

/-- A row of the `orders` table, carrying its items (created in the same
aggregate insert in `createOrder` / `checkoutFromCart`). -/
structure OrderRow where
  id : Nat
  userId : Nat
  orderNumber : String
  status : OrderStatus
  subtotalAmount : ℚ
  discountAmount : ℚ
  shippingFee : ℚ
  totalAmount : ℚ
  shippingAddressId : Nat
  items : List OrderItemRow
deriving DecidableEq, Repr

/-- A row of the `carts` table (unique per user in the schema). -/
structure CartRow where
  id : Nat
  userId : Nat
deriving DecidableEq, Repr

/-- A row of the `cart_items` table. The schema has a unique index on
`(cartId, productId, variantId)`. -/
structure CartItemRow where
  id : Nat
  cartId : Nat
  productId : Nat
  variantId : Option Nat
  quantity : Int
  priceSnapshot : ℚ
  deliveryChargeSnapshot : ℚ
deriving DecidableEq, Repr

/-- The database state visible to the order/cart subsystem. -/
structure DB where
  products : List Product
  variants : List ProductVariant
  addresses : List OrderAddress
  orders : List OrderRow
  carts : List CartRow
  cartItems : List CartItemRow
  nextId : Nat
deriving DecidableEq, Repr

/-- Errors thrown by the order/cart services (each constructor corresponds to
one `throw new Error(...)` site in the source). -/
inductive CheckoutIssue
  | productMissing (productId : Nat)
  | productUnavailable (productId : Nat)
  | insufficientStock (productId : Nat) (requested available : Int)
deriving DecidableEq, Repr

inductive Err
  | shippingAddressNotFound
  | productNotFound (productId : Nat)
  | insufficientProductStock (productId : Nat)
  | variantNotFound (variantId : Nat)
  | insufficientVariantStock (variantId : Nat)
  | orderNotFound
  | notOrderOwner
  | orderAlreadyCancelled
  | orderShippedOrDelivered
  | cartProductNotFound (productId : Nat)
  | productNotAvailable (productId : Nat)
  | cartVariantNotFound (variantId : Nat)
  | variantNotOfProduct (variantId : Nat)
  | insufficientStockForCart (available : Int)
  | cannotAddMore (available : Int)
  | cartValidationFailed (issues : List CheckoutIssue)
  | cartEmpty
deriving DecidableEq, Repr

/-- `prisma.product.findUnique({ where: { id } })`. -/
def findProduct (db : DB) (pid : Nat) : Option Product :=
  db.products.find? (fun p => p.id == pid)

/-- `prisma.productVariant.findUnique({ where: { id } })`. -/
def findVariant (db : DB) (vid : Nat) : Option ProductVariant :=
  db.variants.find? (fun v => v.id == vid)

/-- `prisma.orderAddress.findFirst({ where: { id, userId } })`. -/
def findAddress (db : DB) (aid uid : Nat) : Option OrderAddress :=
  db.addresses.find? (fun a => a.id == aid && a.userId == uid)

/-- `prisma.order.findUnique({ where: { id } })`. -/
def findOrder (db : DB) (oid : Nat) : Option OrderRow :=
  db.orders.find? (fun o => o.id == oid)

/-- `prisma.cart.findUnique({ where: { userId } })`. -/
def findCart (db : DB) (uid : Nat) : Option CartRow :=
  db.carts.find? (fun c => c.userId == uid)

/-- The stock of a product, as an observation on the state. -/
def productStock (db : DB) (pid : Nat) : Option Int :=
  (findProduct db pid).map (fun p => p.stock)

/-- The stock of a variant, as an observation on the state. -/
def variantStock (db : DB) (vid : Nat) : Option Int :=
  (findVariant db vid).map (fun v => v.stock)

/-- `prisma.product.update({ where: { id }, data: { stock: { decrement: q } } })`. -/
def decrementProductStock (db : DB) (pid : Nat) (q : Int) : DB :=
  { db with
    products := db.products.map
      (fun p => if p.id == pid then { p with stock := p.stock - q } else p) }

/-- `prisma.product.update({ where: { id }, data: { stock: { increment: q } } })`. -/
def incrementProductStock (db : DB) (pid : Nat) (q : Int) : DB :=
  { db with
    products := db.products.map
      (fun p => if p.id == pid then { p with stock := p.stock + q } else p) }

/-- `prisma.productVariant.update({ where: { id }, data: { stock: { decrement: q } } })`. -/
def decrementVariantStock (db : DB) (vid : Nat) (q : Int) : DB :=
  { db with
    variants := db.variants.map
      (fun v => if v.id == vid then { v with stock := v.stock - q } else v) }

-- ===== Order service: direct creation path (`createOrder`) =====

/-- `OrderItemRequest` from `order.types.ts`. -/
structure OrderItemRequest where
  productId : Nat
  variantId : Option Nat
  quantity : Int
deriving DecidableEq, Repr

/-- `CreateOrderRequest` from `order.types.ts` (payment method and notes are
irrelevant to the claims and omitted). -/
structure CreateOrderRequest where
  items : List OrderItemRequest
  shippingAddressId : Nat
deriving DecidableEq, Repr

/-- One entry of `itemsWithDetails` in `createOrder`. -/
structure ItemDetail where
  product : Product
  variant : Option ProductVariant
  quantity : Int
deriving DecidableEq, Repr

/-- The per-item validation inside `createOrder`'s `Promise.all` block:
load the product (`NotFound` if missing), check `product.stock < quantity`,
then, when a `variantId` is given, load the variant by id only (`NotFound` if
missing) and check `variant.stock < quantity`.  Note the source does not
check that the variant belongs to the requested product. -/
def validateOrderItem (db : DB) (item : OrderItemRequest) : Except Err ItemDetail :=
  match findProduct db item.productId with
  | none => .error (.productNotFound item.productId)
  | some product =>
    if product.stock < item.quantity then
      .error (.insufficientProductStock item.productId)
    else
      match item.variantId with
      | none => .ok { product := product, variant := none, quantity := item.quantity }
      | some vid =>
        match findVariant db vid with
        | none => .error (.variantNotFound vid)
        | some variant =>
          if variant.stock < item.quantity then
            .error (.insufficientVariantStock vid)
          else
            .ok { product := product, variant := some variant, quantity := item.quantity }

/-- The whole `Promise.all(data.items.map(...))`: every item is validated
against the same pre-write state; the first failing item's error rejects the
call. -/
def validateOrderItems (db : DB) : List OrderItemRequest → Except Err (List ItemDetail)
  | [] => .ok []
  | item :: rest =>
    match validateOrderItem db item with
    | .error e => .error e
    | .ok d =>
      match validateOrderItems db rest with
      | .error e => .error e
      | .ok ds => .ok (d :: ds)

/-- The per-item pricing block of `createOrder` (lines building
`orderItemsData`): returns the order item row together with its
`itemSubtotal`, `discount` and `deliveryLine` contributions.
`product.discount ? (product.discount / 100) * itemSubtotal : 0` is falsy
both on `null` and on `0`. -/
def createOrderLine (d : ItemDetail) : OrderItemRow × ℚ × ℚ × ℚ :=
  let basePrice := d.product.price
  let variantPriceDiff := (d.variant.bind (fun v => v.priceDiff)).getD 0
  let unitPrice := basePrice + variantPriceDiff
  let itemSubtotal := unitPrice * (d.quantity : ℚ)
  let discount :=
    match d.product.discount with
    | some disc => if disc = 0 then 0 else (disc / 100) * itemSubtotal
    | none => 0
  let deliveryCharge := d.product.deliveryCharge
  let deliveryLine := deliveryCharge * (d.quantity : ℚ)
  let totalPrice := itemSubtotal - discount + deliveryLine
  ({ productId := d.product.id
     shopId := d.product.shopId
     variantId := d.variant.map (fun v => v.id)
     quantity := d.quantity
     unitPrice := unitPrice
     deliveryCharge := deliveryCharge
     totalPrice := totalPrice },
   itemSubtotal, discount, deliveryLine)

/-- `createOrder(userId, data)` from `order.service.ts`.  The randomly
generated order number is passed in as a parameter.  All validation precedes
every write; on success the order aggregate is inserted and then each item's
product stock is decremented (`Promise.all` of unconditional decrements). -/
def createOrder (db : DB) (userId : Nat) (data : CreateOrderRequest)
    (orderNumber : String) : DB × Except Err OrderRow :=
  match findAddress db data.shippingAddressId userId with
  | none => (db, .error .shippingAddressNotFound)
  | some _ =>
    match validateOrderItems db data.items with
    | .error e => (db, .error e)
    | .ok details =>
      let lines := details.map createOrderLine
      let orderItemsData := lines.map (fun l => l.1)
      let subtotalAmount := (lines.map (fun l => l.2.1)).sum
      let discountAmount := (lines.map (fun l => l.2.2.1)).sum
      let deliveryTotal := (lines.map (fun l => l.2.2.2)).sum
      let shippingFee : ℚ := 0
      let totalAmount := subtotalAmount - discountAmount + deliveryTotal + shippingFee
      let order : OrderRow :=
        { id := db.nextId
          userId := userId
          orderNumber := orderNumber
          status := .PENDING
          subtotalAmount := subtotalAmount
          discountAmount := discountAmount
          shippingFee := shippingFee
          totalAmount := totalAmount
          shippingAddressId := data.shippingAddressId
          items := orderItemsData }
      let db1 := { db with orders := db.orders ++ [order], nextId := db.nextId + 1 }
      let db2 := details.foldl
        (fun acc d => decrementProductStock acc d.product.id d.quantity) db1
      (db2, .ok order)

-- ===== Order service: `cancelOrder` =====

/-- `cancelOrder(orderId, userId)` from `order.service.ts`.  All four guards
precede every write; on success each order item's product stock is
incremented and the order status is set to CANCELLED.  Variant stock is
never touched. -/
def cancelOrder (db : DB) (orderId userId : Nat) : DB × Except Err OrderRow :=
  match findOrder db orderId with
  | none => (db, .error .orderNotFound)
  | some order =>
    if order.userId ≠ userId then (db, .error .notOrderOwner)
    else if order.status = .CANCELLED then (db, .error .orderAlreadyCancelled)
    else if order.status = .SHIPPED ∨ order.status = .DELIVERED then
      (db, .error .orderShippedOrDelivered)
    else
      let db1 := order.items.foldl
        (fun acc item => incrementProductStock acc item.productId item.quantity) db
      let db2 := { db1 with
        orders := db1.orders.map
          (fun o => if o.id == orderId then { o with status := OrderStatus.CANCELLED } else o) }
      (db2, .ok { order with status := OrderStatus.CANCELLED })

-- ===== Cart service =====

/-- `AddToCartRequest` from `cart.types.ts`. -/
structure AddToCartRequest where
  productId : Nat
  variantId : Option Nat
  quantity : Int
deriving DecidableEq, Repr

/-- `getOrCreateCart(userId)`: fetch the user's cart, lazily creating an
empty one when absent.  Returns the (possibly updated) state together with
the cart row. -/
def getOrCreateCart (db : DB) (userId : Nat) : DB × CartRow :=
  match findCart db userId with
  | some cart => (db, cart)
  | none =>
    let cart : CartRow := { id := db.nextId, userId := userId }
    ({ db with carts := db.carts ++ [cart], nextId := db.nextId + 1 }, cart)

/-- The items belonging to a cart (the `include: { items: ... }` join). -/
def itemsOfCart (db : DB) (cartId : Nat) : List CartItemRow :=
  db.cartItems.filter (fun ci => ci.cartId == cartId)

/-- The variant-validation block of `addToCart`: when a `variantId` is given,
the variant must exist and belong to the product. -/
def resolveCartVariant (db : DB) (pid : Nat) (vid : Option Nat) :
    Except Err (Option ProductVariant) :=
  match vid with
  | none => .ok none
  | some v =>
    match findVariant db v with
    | none => .error (.cartVariantNotFound v)
    | some vr =>
      if vr.productId ≠ pid then .error (.variantNotOfProduct v)
      else .ok (some vr)

/-- The upsert block of `addToCart`: `findFirst` on
`(cartId, productId, variantId)`, then either a quantity-accumulating update
(guarded by the live available stock) or a fresh insert. -/
def cartUpsert (db : DB) (cart : CartRow) (data : AddToCartRequest)
    (availableStock : Int) (priceSnapshot deliveryChargeSnapshot : ℚ) :
    DB × Except Err Unit :=
  match db.cartItems.find? (fun ci =>
      ci.cartId == cart.id && ci.productId == data.productId
        && ci.variantId == data.variantId) with
  | some existingItem =>
    if existingItem.quantity + data.quantity > availableStock then
      (db, .error (.cannotAddMore availableStock))
    else
      ({ db with cartItems := db.cartItems.map (fun ci =>
          if ci.id == existingItem.id then
            { ci with
              quantity := existingItem.quantity + data.quantity
              priceSnapshot := priceSnapshot
              deliveryChargeSnapshot := deliveryChargeSnapshot }
          else ci) },
       .ok ())
  | none =>
    ({ db with
       cartItems := db.cartItems ++
         [{ id := db.nextId
            cartId := cart.id
            productId := data.productId
            variantId := data.variantId
            quantity := data.quantity
            priceSnapshot := priceSnapshot
            deliveryChargeSnapshot := deliveryChargeSnapshot }]
       nextId := db.nextId + 1 },
     .ok ())

/-- `addToCart(userId, data)` from the cart service.  Validation order is as
in the source: product existence, ACTIVE status, variant existence and
membership in the product, stock bound, then `getOrCreateCart`, then the
upsert keyed on `(cartId, productId, variantId)` via `findFirst`. -/
def addToCart (db : DB) (userId : Nat) (data : AddToCartRequest) :
    DB × Except Err Unit :=
  match findProduct db data.productId with
  | none => (db, .error (.cartProductNotFound data.productId))
  | some product =>
    if product.status ≠ .ACTIVE then (db, .error (.productNotAvailable data.productId))
    else
      match resolveCartVariant db data.productId data.variantId with
      | .error e => (db, .error e)
      | .ok variant =>
        let availableStock := match variant with
          | some v => v.stock
          | none => product.stock
        if data.quantity > availableStock then
          (db, .error (.insufficientStockForCart availableStock))
        else
          let st := getOrCreateCart db userId
          cartUpsert st.1 st.2 data availableStock
            (product.price - (product.discount.getD 0)
              + (variant.bind (fun v => v.priceDiff)).getD 0)
            product.deliveryCharge

/-- One iteration of the `for (const item of cart.items)` loop in
`validateCartForCheckout`: at most one issue per cart line, with the same
`continue` structure as the source.  When the item references a variant that
no longer exists, the source silently falls back to the product's stock. -/
def checkCartItem (db : DB) (item : CartItemRow) : List CheckoutIssue :=
  match findProduct db item.productId with
  | none => [.productMissing item.productId]
  | some product =>
    if product.status ≠ .ACTIVE then [.productUnavailable item.productId]
    else
      let availableStock :=
        match item.variantId with
        | some vid =>
          match findVariant db vid with
          | some v => v.stock
          | none => product.stock
        | none => product.stock
      if item.quantity > availableStock then
        [.insufficientStock item.productId item.quantity availableStock]
      else []

/-- The result record of `validateCartForCheckout`. -/
structure CheckoutValidation where
  valid : Bool
  issues : List CheckoutIssue
  cart : CartRow
  cartItemsSnapshot : List CartItemRow
deriving DecidableEq, Repr

/-- `validateCartForCheckout(userId)` from the cart service.  It starts with
`getOrCreateCart`, so for a user without a cart it creates one; the
validation loop itself only reads. -/
def validateCartForCheckout (db : DB) (userId : Nat) : DB × CheckoutValidation :=
  let st := getOrCreateCart db userId
  let db1 := st.1
  let cart := st.2
  let items := itemsOfCart db1 cart.id
  let issues := items.foldl (fun acc it => acc ++ checkCartItem db1 it) []
  (db1,
   { valid := issues.isEmpty
     issues := issues
     cart := cart
     cartItemsSnapshot := items })

/-- `getCartItemsForOrder(userId)`: the user's cart items (empty when the
user has no cart). -/
def getCartItemsForOrder (db : DB) (userId : Nat) : List CartItemRow :=
  match findCart db userId with
  | none => []
  | some cart => itemsOfCart db cart.id

/-- `clearCartAfterOrder(userId)`: `deleteMany` of the cart's items. -/
def clearCartAfterOrder (db : DB) (userId : Nat) : DB :=
  match findCart db userId with
  | none => db
  | some cart =>
    { db with cartItems := db.cartItems.filter (fun ci => !(ci.cartId == cart.id)) }

-- ===== Order service: cart checkout path (`checkoutFromCart`) =====

/-- `CheckoutFromCartRequest` from `order.service.ts` (payment method and
notes omitted as irrelevant to the claims). -/
structure CheckoutFromCartRequest where
  shippingAddressId : Nat
deriving DecidableEq, Repr

/-- The per-item block of `checkoutFromCart` building `orderItemsData`:
`unitPrice` and `deliveryCharge` are copied from the cart item's snapshots,
never recomputed from the live product.  Returns the order item row together
with its `itemSubtotal` and `deliveryLine` contributions.  The `shopId`
comes from the joined product (present whenever validation succeeded; the
default 0 is unreachable on the success path). -/
def checkoutLine (db : DB) (item : CartItemRow) : OrderItemRow × ℚ × ℚ :=
  let unitPrice := item.priceSnapshot
  let deliveryCharge := item.deliveryChargeSnapshot
  let itemSubtotal := unitPrice * (item.quantity : ℚ)
  let deliveryLine := deliveryCharge * (item.quantity : ℚ)
  let totalPrice := itemSubtotal + deliveryLine
  ({ productId := item.productId
     shopId := ((findProduct db item.productId).map (fun p => p.shopId)).getD 0
     variantId := item.variantId
     quantity := item.quantity
     unitPrice := unitPrice
     deliveryCharge := deliveryCharge
     totalPrice := totalPrice },
   itemSubtotal, deliveryLine)

/-- `checkoutFromCart(userId, data)` from `order.service.ts`: validate the
cart (which may lazily create one), reject on any issue or an empty cart,
validate the shipping address, build the order from the cart snapshots,
insert it, decrement every product's stock, additionally decrement variant
stock for variant lines, and clear the cart. -/
def checkoutFromCart (db : DB) (userId : Nat) (data : CheckoutFromCartRequest)
    (orderNumber : String) : DB × Except Err OrderRow :=
  let v := validateCartForCheckout db userId
  let db1 := v.1
  let validation := v.2
  if !validation.valid then (db1, .error (.cartValidationFailed validation.issues))
  else if validation.cartItemsSnapshot.length == 0 then (db1, .error .cartEmpty)
  else
    match findAddress db1 data.shippingAddressId userId with
    | none => (db1, .error .shippingAddressNotFound)
    | some _ =>
      let cartItems := getCartItemsForOrder db1 userId
      let lines := cartItems.map (checkoutLine db1)
      let orderItemsData := lines.map (fun l => l.1)
      let subtotalAmount := (lines.map (fun l => l.2.1)).sum
      let deliveryTotal := (lines.map (fun l => l.2.2)).sum
      let shippingFee : ℚ := 0
      let discountAmount : ℚ := 0
      let totalAmount := subtotalAmount + deliveryTotal + shippingFee - discountAmount
      let order : OrderRow :=
        { id := db1.nextId
          userId := userId
          orderNumber := orderNumber
          status := .PENDING
          subtotalAmount := subtotalAmount
          discountAmount := discountAmount
          shippingFee := shippingFee
          totalAmount := totalAmount
          shippingAddressId := data.shippingAddressId
          items := orderItemsData }
      let db2 := { db1 with orders := db1.orders ++ [order], nextId := db1.nextId + 1 }
      let db3 := cartItems.foldl
        (fun acc it => decrementProductStock acc it.productId it.quantity) db2
      let db4 := (cartItems.filter (fun it => it.variantId.isSome)).foldl
        (fun acc it => decrementVariantStock acc (it.variantId.getD 0) it.quantity) db3
      let db5 := clearCartAfterOrder db4 userId
      (db5, .ok order)

-- ===== `generateOrderNumber` =====

/-- The digit characters produced by JS `Number.prototype.toString(36)`:
`0`-`9` then lowercase `a`-`z`. -/
def base36Char (d : Fin 36) : Char :=
  if d.val < 10 then Char.ofNat (48 + d.val) else Char.ofNat (97 + (d.val - 10))

/-- `String.prototype.toUpperCase` on the ASCII characters that
`toString(36)` can produce. -/
def jsToUpper (c : Char) : Char :=
  if 'a' ≤ c ∧ c ≤ 'z' then Char.ofNat (c.toNat - 32) else c

/-- `x.toString(36)` for a double `x` in `[0, 1)`, modelled by the finite
list of base-36 fractional digits that JS prints (no trailing zero, empty
for `x = 0`): `"0"` when the value is zero, else `"0."` followed by the
digits. -/
def jsToString36 (frac : List (Fin 36)) : List Char :=
  match frac with
  | [] => ['0']
  | ds => '0' :: '.' :: ds.map base36Char

/-- One zero-padded decimal digit position: the character of `n % 10`. -/
def natDigitChar (n : Nat) : Char := Char.ofNat (48 + n % 10)

/-- Two-digit zero-padded decimal rendering (faithful to `toISOString`'s
month/day fields for values below 100). -/
def pad2 (n : Nat) : List Char := [natDigitChar (n / 10), natDigitChar n]

/-- Four-digit zero-padded decimal rendering (faithful to `toISOString`'s
year field for years below 10000). -/
def pad4 (n : Nat) : List Char :=
  [natDigitChar (n / 1000), natDigitChar (n / 100), natDigitChar (n / 10), natDigitChar n]

/-- `generateOrderNumber` from `order.service.ts`, with `new Date()`
modelled by its UTC year/month/day and `Math.random()` by the base-36
fractional digit list of the double it returns.
`toISOString().slice(0, 10)` with the dashes removed yields the zero-padded
`YYYYMMDD`; `.toString(36).substring(2, 8)` keeps at most six fractional
digits (fewer when the double's base-36 expansion is shorter);
`.toUpperCase()` uppercases them. -/
def generateOrderNumberChars (year month day : Nat) (frac : List (Fin 36)) :
    List Char :=
  let dateStr := pad4 year ++ pad2 month ++ pad2 day
  let random := (((jsToString36 frac).drop 2).take 6).map jsToUpper
  ('O' :: 'R' :: 'D' :: '-' :: dateStr) ++ ('-' :: random)

def generateOrderNumber (year month day : Nat) (frac : List (Fin 36)) : String :=
  ⟨generateOrderNumberChars year month day frac⟩

/-- `[0-9]` as a character class. -/
def isAsciiDigit (c : Char) : Bool := '0' ≤ c && c ≤ '9'

/-- `[A-Z0-9]` as a character class. -/
def isUpperBase36 (c : Char) : Bool := isAsciiDigit c || ('A' ≤ c && c ≤ 'Z')

/-- The spec's regex `^ORD-\d{8}-[A-Z0-9]{6}$` as a predicate on the
character list. -/
def matchesOrderNumberPattern (cs : List Char) : Bool :=
  match cs with
  | 'O' :: 'R' :: 'D' :: '-' :: rest =>
    ((rest.take 8).length == 8 && (rest.take 8).all isAsciiDigit) &&
    (match rest.drop 8 with
     | '-' :: suffix => suffix.length == 6 && suffix.all isUpperBase36
     | _ => false)
  | _ => false

/-- The relaxed pattern `^ORD-\d{8}-[A-Z0-9]{0,6}$` the code actually
guarantees. -/
def matchesRelaxedOrderNumberPattern (cs : List Char) : Bool :=
  match cs with
  | 'O' :: 'R' :: 'D' :: '-' :: rest =>
    ((rest.take 8).length == 8 && (rest.take 8).all isAsciiDigit) &&
    (match rest.drop 8 with
     | '-' :: suffix => decide (suffix.length ≤ 6) && suffix.all isUpperBase36
     | _ => false)
  | _ => false

-- ===== Derived observations used in claim statements =====

/-- Sum over order items of `unitPrice * quantity` (the spec's
`subtotalAmount` formula). -/
def itemsSubtotal (items : List OrderItemRow) : ℚ :=
  (items.map (fun i => i.unitPrice * (i.quantity : ℚ))).sum

/-- Sum over order items of `deliveryCharge * quantity` (the spec's
"per-item delivery totals"). -/
def itemsDeliveryTotal (items : List OrderItemRow) : ℚ :=
  (items.map (fun i => i.deliveryCharge * (i.quantity : ℚ))).sum

/-- The available-stock value `addToCart` validates against, defined exactly
when the product/variant configuration passes `addToCart`'s validation:
`none` when the variant is missing or belongs to a different product. -/
def availableStockFor (db : DB) (pid : Nat) (vid : Option Nat) : Option Int :=
  match findProduct db pid with
  | none => none
  | some p =>
    match vid with
    | none => some p.stock
    | some v =>
      match findVariant db v with
      | none => none
      | some vr => if vr.productId = pid then some vr.stock else none

/-- The cart-item rows of the user's cart for one `(product, variant)` pair
(the rows the schema's unique index ranges over). -/
def userPairItems (db : DB) (u pid : Nat) (vid : Option Nat) : List CartItemRow :=
  match findCart db u with
  | none => []
  | some c =>
    db.cartItems.filter (fun ci =>
      ci.cartId == c.id && ci.productId == pid && ci.variantId == vid)

/-- Total ordered quantity of the given variant across a list of cart items. -/
def cartVariantQty (items : List CartItemRow) (vid : Nat) : Int :=
  ((items.filter (fun ci => ci.variantId == some vid)).map (fun ci => ci.quantity)).sum

/-- Well-formedness: every id already allocated in the database is below the
`nextId` counter (Prisma-generated ids are never re-used). -/
def FreshIds (db : DB) : Prop :=
  (∀ o ∈ db.orders, o.id < db.nextId) ∧
  (∀ c ∈ db.carts, c.id < db.nextId) ∧
  (∀ ci ∈ db.cartItems, ci.id < db.nextId) ∧
  (∀ ci ∈ db.cartItems, ci.cartId < db.nextId)

-- ===== Generic list helpers =====

theorem find?_map_congr {α : Type} (f : α → α) (p : α → Bool)
    (hf : ∀ x, p (f x) = p x) (l : List α) :
    (l.map f).find? p = (l.find? p).map f := by
  induction l with
  | nil => rfl
  | cons a l ih =>
    simp only [List.map_cons, List.find?_cons, hf a]
    cases h : p a <;> simp [h, ih]

theorem filter_map_congr {α : Type} (f : α → α) (p : α → Bool)
    (hf : ∀ x, p (f x) = p x) (l : List α) :
    (l.map f).filter p = (l.filter p).map f := by
  induction l with
  | nil => rfl
  | cons a l ih =>
    simp only [List.map_cons, List.filter_cons, hf a]
    cases h : p a <;> simp [h, ih]

theorem find?_of_filter_singleton {α : Type} {p : α → Bool} {l : List α} {a : α}
    (h : l.filter p = [a]) : l.find? p = some a := by
  induction l with
  | nil => simp at h
  | cons b l ih =>
    rw [List.filter_cons] at h
    cases hb : p b with
    | true =>
      simp only [hb, if_true] at h
      obtain ⟨h1, h2⟩ := List.cons_eq_cons.mp h
      subst h1
      simp [List.find?_cons, hb]
    | false =>
      simp only [hb, Bool.false_eq_true, if_false] at h
      simp [List.find?_cons, hb, ih h]

theorem foldl_preserve {α β : Type} (f : DB → α → DB) (proj : DB → β)
    (hf : ∀ db a, proj (f db a) = proj db) (L : List α) (db : DB) :
    proj (L.foldl f db) = proj db := by
  induction L generalizing db with
  | nil => rfl
  | cons a L ih => rw [List.foldl_cons, ih, hf]

/-- Restating a filtered sum through the `(key, value)` projection of the
list, so that two lists with equal pair projections get equal sums. -/
theorem filter_sum_pairs {α : Type} (L : List α) (f : α → Nat) (g : α → Int)
    (pid : Nat) :
    ((L.filter (fun x => f x == pid)).map g).sum
      = (((L.map (fun x => (f x, g x))).filter (fun q => q.1 == pid)).map
          (fun q => q.2)).sum := by
  induction L with
  | nil => rfl
  | cons a L ih =>
    simp only [List.filter_cons, List.map_cons]
    cases h : (f a == pid) <;> simp [h, ih]

-- ===== Stock observation lemmas =====

theorem productStock_decrement (db : DB) (p : Nat) (q : Int) (pid : Nat) :
    productStock (decrementProductStock db p q) pid
      = (productStock db pid).map (fun s => if p == pid then s - q else s) := by
  show ((db.products.map fun x => if x.id == p then { x with stock := x.stock - q } else x).find?
      (fun x => x.id == pid)).map (fun x => x.stock)
    = ((db.products.find? (fun x => x.id == pid)).map (fun x => x.stock)).map
        (fun s => if p == pid then s - q else s)
  rw [find?_map_congr]
  · cases h : db.products.find? (fun x => x.id == pid) with
    | none => rfl
    | some a =>
      have ha : a.id = pid := by
        have := List.find?_some h
        simpa using this
      by_cases hpq : p = pid
      · subst hpq; simp [ha]
      · have h1 : (a.id == p) = false :=
          beq_eq_false_iff_ne.mpr (by rw [ha]; exact fun hh => hpq hh.symm)
        have h2 : (p == pid) = false := beq_eq_false_iff_ne.mpr hpq
        simp [h1, h2, ha, Ne.symm hpq]
  · intro x
    by_cases hx : x.id = p <;> simp [hx]

theorem productStock_increment (db : DB) (p : Nat) (q : Int) (pid : Nat) :
    productStock (incrementProductStock db p q) pid
      = (productStock db pid).map (fun s => if p == pid then s + q else s) := by
  show ((db.products.map fun x => if x.id == p then { x with stock := x.stock + q } else x).find?
      (fun x => x.id == pid)).map (fun x => x.stock)
    = ((db.products.find? (fun x => x.id == pid)).map (fun x => x.stock)).map
        (fun s => if p == pid then s + q else s)
  rw [find?_map_congr]
  · cases h : db.products.find? (fun x => x.id == pid) with
    | none => rfl
    | some a =>
      have ha : a.id = pid := by
        have := List.find?_some h
        simpa using this
      by_cases hpq : p = pid
      · subst hpq; simp [ha]
      · have h1 : (a.id == p) = false :=
          beq_eq_false_iff_ne.mpr (by rw [ha]; exact fun hh => hpq hh.symm)
        have h2 : (p == pid) = false := beq_eq_false_iff_ne.mpr hpq
        simp [h1, h2, ha, Ne.symm hpq]
  · intro x
    by_cases hx : x.id = p <;> simp [hx]

theorem variantStock_decrementVariant (db : DB) (v : Nat) (q : Int) (vid : Nat) :
    variantStock (decrementVariantStock db v q) vid
      = (variantStock db vid).map (fun s => if v == vid then s - q else s) := by
  show ((db.variants.map fun x => if x.id == v then { x with stock := x.stock - q } else x).find?
      (fun x => x.id == vid)).map (fun x => x.stock)
    = ((db.variants.find? (fun x => x.id == vid)).map (fun x => x.stock)).map
        (fun s => if v == vid then s - q else s)
  rw [find?_map_congr]
  · cases h : db.variants.find? (fun x => x.id == vid) with
    | none => rfl
    | some a =>
      have ha : a.id = vid := by
        have := List.find?_some h
        simpa using this
      by_cases hpq : v = vid
      · subst hpq; simp [ha]
      · have h1 : (a.id == v) = false :=
          beq_eq_false_iff_ne.mpr (by rw [ha]; exact fun hh => hpq hh.symm)
        have h2 : (v == vid) = false := beq_eq_false_iff_ne.mpr hpq
        simp [h1, h2, ha, Ne.symm hpq]
  · intro x
    by_cases hx : x.id = v <;> simp [hx]

theorem productStock_foldl_dec {α : Type} (fP : α → Nat) (fQ : α → Int)
    (L : List α) (db : DB) (pid : Nat) :
    productStock (L.foldl (fun acc x => decrementProductStock acc (fP x) (fQ x)) db) pid
      = (productStock db pid).map
          (fun s => s - ((L.filter (fun x => fP x == pid)).map fQ).sum) := by
  induction L generalizing db with
  | nil =>
    simp only [List.foldl_nil, List.filter_nil, List.map_nil, List.sum_nil, sub_zero]
    cases productStock db pid <;> rfl
  | cons a L ih =>
    rw [List.foldl_cons, ih, productStock_decrement, Option.map_map, List.filter_cons]
    cases h : (fP a == pid) <;>
      · cases hs : productStock db pid <;> simp [h, hs, Function.comp, sub_sub]

theorem productStock_foldl_inc {α : Type} (fP : α → Nat) (fQ : α → Int)
    (L : List α) (db : DB) (pid : Nat) :
    productStock (L.foldl (fun acc x => incrementProductStock acc (fP x) (fQ x)) db) pid
      = (productStock db pid).map
          (fun s => s + ((L.filter (fun x => fP x == pid)).map fQ).sum) := by
  induction L generalizing db with
  | nil =>
    simp only [List.foldl_nil, List.filter_nil, List.map_nil, List.sum_nil, add_zero]
    cases productStock db pid <;> rfl
  | cons a L ih =>
    rw [List.foldl_cons, ih, productStock_increment, Option.map_map, List.filter_cons]
    cases h : (fP a == pid) <;>
      · cases hs : productStock db pid <;> simp [h, hs, Function.comp, add_assoc]

theorem variantStock_foldl_dec {α : Type} (fP : α → Nat) (fQ : α → Int)
    (L : List α) (db : DB) (vid : Nat) :
    variantStock (L.foldl (fun acc x => decrementVariantStock acc (fP x) (fQ x)) db) vid
      = (variantStock db vid).map
          (fun s => s - ((L.filter (fun x => fP x == vid)).map fQ).sum) := by
  induction L generalizing db with
  | nil =>
    simp only [List.foldl_nil, List.filter_nil, List.map_nil, List.sum_nil, sub_zero]
    cases variantStock db vid <;> rfl
  | cons a L ih =>
    rw [List.foldl_cons, ih, variantStock_decrementVariant, Option.map_map, List.filter_cons]
    cases h : (fP a == vid) <;>
      · cases hs : variantStock db vid <;> simp [h, hs, Function.comp, sub_sub]

-- ===== Frame lemmas =====

theorem decrementProductStock_frame (db : DB) (p : Nat) (q : Int) :
    (decrementProductStock db p q).variants = db.variants ∧
    (decrementProductStock db p q).orders = db.orders ∧
    (decrementProductStock db p q).carts = db.carts ∧
    (decrementProductStock db p q).cartItems = db.cartItems ∧
    (decrementProductStock db p q).nextId = db.nextId :=
  ⟨rfl, rfl, rfl, rfl, rfl⟩

theorem incrementProductStock_frame (db : DB) (p : Nat) (q : Int) :
    (incrementProductStock db p q).variants = db.variants ∧
    (incrementProductStock db p q).orders = db.orders ∧
    (incrementProductStock db p q).carts = db.carts ∧
    (incrementProductStock db p q).cartItems = db.cartItems ∧
    (incrementProductStock db p q).nextId = db.nextId :=
  ⟨rfl, rfl, rfl, rfl, rfl⟩

theorem decrementVariantStock_frame (db : DB) (v : Nat) (q : Int) :
    (decrementVariantStock db v q).products = db.products ∧
    (decrementVariantStock db v q).orders = db.orders ∧
    (decrementVariantStock db v q).carts = db.carts ∧
    (decrementVariantStock db v q).cartItems = db.cartItems ∧
    (decrementVariantStock db v q).nextId = db.nextId :=
  ⟨rfl, rfl, rfl, rfl, rfl⟩

theorem variantStock_decrementProduct (db : DB) (p : Nat) (q : Int) (vid : Nat) :
    variantStock (decrementProductStock db p q) vid = variantStock db vid := rfl

theorem variantStock_incrementProduct (db : DB) (p : Nat) (q : Int) (vid : Nat) :
    variantStock (incrementProductStock db p q) vid = variantStock db vid := rfl

theorem productStock_decrementVariant (db : DB) (v : Nat) (q : Int) (pid : Nat) :
    productStock (decrementVariantStock db v q) pid = productStock db pid := rfl

theorem clearCartAfterOrder_frame (db : DB) (u : Nat) :
    (clearCartAfterOrder db u).products = db.products ∧
    (clearCartAfterOrder db u).variants = db.variants ∧
    (clearCartAfterOrder db u).orders = db.orders ∧
    (clearCartAfterOrder db u).carts = db.carts ∧
    (clearCartAfterOrder db u).nextId = db.nextId := by
  unfold clearCartAfterOrder
  cases findCart db u <;> exact ⟨rfl, rfl, rfl, rfl, rfl⟩

-- ===== Evaluation equations for the service calls =====

/-- The order row built by a successful `createOrder` over validated details. -/
def createdOrderOf (db : DB) (u : Nat) (req : CreateOrderRequest) (n : String)
    (details : List ItemDetail) : OrderRow :=
  { id := db.nextId
    userId := u
    orderNumber := n
    status := .PENDING
    subtotalAmount := ((details.map createOrderLine).map (fun l => l.2.1)).sum
    discountAmount := ((details.map createOrderLine).map (fun l => l.2.2.1)).sum
    shippingFee := 0
    totalAmount := ((details.map createOrderLine).map (fun l => l.2.1)).sum
      - ((details.map createOrderLine).map (fun l => l.2.2.1)).sum
      + ((details.map createOrderLine).map (fun l => l.2.2.2)).sum + 0
    shippingAddressId := req.shippingAddressId
    items := (details.map createOrderLine).map (fun l => l.1) }

/-- The state produced by a successful `createOrder`. -/
def createdStateOf (db : DB) (details : List ItemDetail) (o : OrderRow) : DB :=
  details.foldl (fun acc d => decrementProductStock acc d.product.id d.quantity)
    { db with orders := db.orders ++ [o], nextId := db.nextId + 1 }

theorem createOrder_eq_of (db : DB) (u : Nat) (req : CreateOrderRequest)
    (n : String) (a : OrderAddress) (details : List ItemDetail)
    (ha : findAddress db req.shippingAddressId u = some a)
    (hv : validateOrderItems db req.items = .ok details) :
    createOrder db u req n =
      (createdStateOf db details (createdOrderOf db u req n details),
       .ok (createdOrderOf db u req n details)) := by
  unfold createOrder
  rw [ha, hv]
  rfl

theorem findOrder_append_fresh (l : List OrderRow) (o : OrderRow)
    (hfresh : ∀ x ∈ l, x.id ≠ o.id) :
    (l ++ [o]).find? (fun x => x.id == o.id) = some o := by
  rw [List.find?_append]
  have h1 : l.find? (fun x => x.id == o.id) = none := by
    rw [List.find?_eq_none]
    intro x hx
    simpa using hfresh x hx
  simp [h1]

theorem cancelOrder_eq_pending (db : DB) (oid u : Nat) (o : OrderRow)
    (ho : findOrder db oid = some o) (hu : o.userId = u)
    (hst : o.status = .PENDING) :
    cancelOrder db oid u =
      ({ (o.items.foldl
            (fun acc item => incrementProductStock acc item.productId item.quantity) db) with
          orders := ((o.items.foldl
            (fun acc item => incrementProductStock acc item.productId item.quantity) db)).orders.map
              (fun x => if x.id == oid then { x with status := OrderStatus.CANCELLED } else x) },
       .ok { o with status := OrderStatus.CANCELLED }) := by
  have h1 : ¬ o.userId ≠ u := by simp [hu]
  have h2 : ¬ o.status = OrderStatus.CANCELLED := by rw [hst]; intro hh; cases hh
  have h3 : ¬ (o.status = OrderStatus.SHIPPED ∨ o.status = OrderStatus.DELIVERED) := by
    rw [hst]; rintro (hh | hh) <;> cases hh
  simp only [cancelOrder, ho]
  rw [if_neg h1, if_neg h2, if_neg h3]

/-- In a database whose allocated cart ids are all below `nextId`, a cart
with id `nextId` has no items. -/
theorem itemsOfCart_fresh_nil (db : DB)
    (hfresh : ∀ ci ∈ db.cartItems, ci.cartId < db.nextId) :
    itemsOfCart db db.nextId = [] := by
  unfold itemsOfCart
  rw [List.filter_eq_nil_iff]
  intro ci hci
  have := hfresh ci hci
  simp
  omega

/-- The issue accumulator of `validateCartForCheckout`. -/
theorem cartIssues_foldl_append (db : DB) (items : List CartItemRow)
    (acc : List CheckoutIssue) :
    items.foldl (fun acc it => acc ++ checkCartItem db it) acc
      = acc ++ items.foldl (fun acc it => acc ++ checkCartItem db it) [] := by
  induction items generalizing acc with
  | nil => simp
  | cons a items ih =>
    rw [List.foldl_cons, List.foldl_cons, List.nil_append, ih, ih (checkCartItem db a)]
    rw [List.append_assoc]

theorem validateCartForCheckout_eq_of (db : DB) (u : Nat) (c : CartRow)
    (hc : findCart db u = some c) :
    validateCartForCheckout db u =
      (db,
       { valid := ((itemsOfCart db c.id).foldl
           (fun acc it => acc ++ checkCartItem db it) []).isEmpty
         issues := (itemsOfCart db c.id).foldl
           (fun acc it => acc ++ checkCartItem db it) []
         cart := c
         cartItemsSnapshot := itemsOfCart db c.id }) := by
  unfold validateCartForCheckout getOrCreateCart
  rw [hc]


theorem validateCartForCheckout_eq_none (db : DB) (u : Nat)
    (hc : findCart db u = none)
    (hfresh : ∀ ci ∈ db.cartItems, ci.cartId < db.nextId) :
    validateCartForCheckout db u =
      ({ db with
          carts := db.carts ++ [{ id := db.nextId, userId := u }]
          nextId := db.nextId + 1 },
       { valid := true
         issues := []
         cart := { id := db.nextId, userId := u }
         cartItemsSnapshot := [] }) := by
  have hempty : db.cartItems.filter (fun ci => ci.cartId == db.nextId) = [] := by
    rw [List.filter_eq_nil_iff]
    intro ci hci
    have := hfresh ci hci
    simp
    omega
  unfold validateCartForCheckout getOrCreateCart itemsOfCart
  rw [hc]
  simp only [hempty, List.foldl_nil, List.isEmpty_nil]

theorem createOrder_eq_addrNone (db : DB) (u : Nat) (req : CreateOrderRequest)
    (n : String) (ha : findAddress db req.shippingAddressId u = none) :
    createOrder db u req n = (db, .error .shippingAddressNotFound) := by
  unfold createOrder
  rw [ha]

theorem createOrder_eq_itemsErr (db : DB) (u : Nat) (req : CreateOrderRequest)
    (n : String) (a : OrderAddress) (e : Err)
    (ha : findAddress db req.shippingAddressId u = some a)
    (hv : validateOrderItems db req.items = .error e) :
    createOrder db u req n = (db, .error e) := by
  unfold createOrder
  rw [ha, hv]

/-- The order row built by a successful `checkoutFromCart` over cart items `cis`. -/
def checkoutOrderOf (db : DB) (u aid : Nat) (n : String) (cis : List CartItemRow) :
    OrderRow :=
  { id := db.nextId
    userId := u
    orderNumber := n
    status := .PENDING
    subtotalAmount := ((cis.map (checkoutLine db)).map (fun l => l.2.1)).sum
    discountAmount := 0
    shippingFee := 0
    totalAmount := ((cis.map (checkoutLine db)).map (fun l => l.2.1)).sum
      + ((cis.map (checkoutLine db)).map (fun l => l.2.2)).sum + 0 - 0
    shippingAddressId := aid
    items := (cis.map (checkoutLine db)).map (fun l => l.1) }

/-- The state produced by a successful `checkoutFromCart` over cart items `cis`. -/
def checkoutStateOf (db : DB) (u : Nat) (o : OrderRow) (cis : List CartItemRow) : DB :=
  clearCartAfterOrder
    ((cis.filter (fun it => it.variantId.isSome)).foldl
      (fun acc it => decrementVariantStock acc (it.variantId.getD 0) it.quantity)
      (cis.foldl (fun acc it => decrementProductStock acc it.productId it.quantity)
        { db with orders := db.orders ++ [o], nextId := db.nextId + 1 })) u

theorem checkoutFromCart_eq_of (db : DB) (u : Nat) (creq : CheckoutFromCartRequest)
    (n : String) (c : CartRow) (a : OrderAddress)
    (hc : findCart db u = some c)
    (hvalid : (itemsOfCart db c.id).foldl (fun acc it => acc ++ checkCartItem db it) [] = [])
    (hne : itemsOfCart db c.id ≠ [])
    (ha : findAddress db creq.shippingAddressId u = some a) :
    checkoutFromCart db u creq n =
      (checkoutStateOf db u
        (checkoutOrderOf db u creq.shippingAddressId n (itemsOfCart db c.id))
        (itemsOfCart db c.id),
       .ok (checkoutOrderOf db u creq.shippingAddressId n (itemsOfCart db c.id))) := by
  have hlen : ((itemsOfCart db c.id).length == 0) = false := by
    rw [beq_eq_false_iff_ne]
    simpa [List.length_eq_zero] using hne
  unfold checkoutFromCart
  rw [validateCartForCheckout_eq_of db u c hc]
  simp only [hvalid, List.isEmpty_nil, Bool.not_true, if_false, hlen, Bool.false_eq_true,
    ha]
  unfold getCartItemsForOrder
  rw [hc]
  rfl

theorem checkoutFromCart_eq_noCart (db : DB) (u : Nat) (creq : CheckoutFromCartRequest)
    (n : String) (hc : findCart db u = none)
    (hfresh : ∀ ci ∈ db.cartItems, ci.cartId < db.nextId) :
    checkoutFromCart db u creq n =
      ({ db with
          carts := db.carts ++ [{ id := db.nextId, userId := u }]
          nextId := db.nextId + 1 },
       .error .cartEmpty) := by
  unfold checkoutFromCart
  rw [validateCartForCheckout_eq_none db u hc hfresh]
  rfl

theorem checkoutFromCart_eq_invalid (db : DB) (u : Nat) (creq : CheckoutFromCartRequest)
    (n : String) (c : CartRow) (issues : List CheckoutIssue)
    (hc : findCart db u = some c)
    (hiss : (itemsOfCart db c.id).foldl (fun acc it => acc ++ checkCartItem db it) []
      = issues)
    (hne : issues ≠ []) :
    checkoutFromCart db u creq n = (db, .error (.cartValidationFailed issues)) := by
  have hv : issues.isEmpty = false := by
    cases issues with
    | nil => cases hne rfl
    | cons x xs => rfl
  unfold checkoutFromCart
  rw [validateCartForCheckout_eq_of db u c hc]
  simp only [hiss, hv, Bool.not_false, if_true]

theorem checkoutFromCart_eq_emptyCart (db : DB) (u : Nat)
    (creq : CheckoutFromCartRequest) (n : String) (c : CartRow)
    (hc : findCart db u = some c)
    (hempty : itemsOfCart db c.id = []) :
    checkoutFromCart db u creq n = (db, .error .cartEmpty) := by
  unfold checkoutFromCart
  rw [validateCartForCheckout_eq_of db u c hc]
  simp only [hempty, List.foldl_nil, List.isEmpty_nil, Bool.not_true, if_false,
    List.length_nil]
  rfl

theorem checkoutFromCart_eq_addrNone (db : DB) (u : Nat)
    (creq : CheckoutFromCartRequest) (n : String) (c : CartRow)
    (hc : findCart db u = some c)
    (hvalid : (itemsOfCart db c.id).foldl (fun acc it => acc ++ checkCartItem db it) [] = [])
    (hne : itemsOfCart db c.id ≠ [])
    (ha : findAddress db creq.shippingAddressId u = none) :
    checkoutFromCart db u creq n = (db, .error .shippingAddressNotFound) := by
  have hlen : ((itemsOfCart db c.id).length == 0) = false := by
    rw [beq_eq_false_iff_ne]
    simpa [List.length_eq_zero] using hne
  unfold checkoutFromCart
  rw [validateCartForCheckout_eq_of db u c hc]
  simp only [hvalid, List.isEmpty_nil, Bool.not_true, if_false, hlen, Bool.false_eq_true,
    ha]

-- ===== Shape lemmas for successful calls =====

theorem createOrder_ok_shape (db : DB) (u : Nat) (req : CreateOrderRequest)
    (n : String) (o : OrderRow) (h : (createOrder db u req n).2 = .ok o) :
    ∃ a details, findAddress db req.shippingAddressId u = some a ∧
      validateOrderItems db req.items = .ok details ∧
      o = createdOrderOf db u req n details ∧
      (createOrder db u req n).1 = createdStateOf db details o := by
  cases ha : findAddress db req.shippingAddressId u with
  | none =>
    rw [createOrder_eq_addrNone db u req n ha] at h
    simp at h
  | some a =>
    cases hv : validateOrderItems db req.items with
    | error e =>
      rw [createOrder_eq_itemsErr db u req n a e ha hv] at h
      simp at h
    | ok details =>
      rw [createOrder_eq_of db u req n a details ha hv] at h
      simp only [Except.ok.injEq] at h
      subst h
      exact ⟨a, details, rfl, rfl, rfl, by
        rw [createOrder_eq_of db u req n a details ha hv]⟩

theorem checkoutFromCart_ok_shape (db : DB) (u : Nat)
    (creq : CheckoutFromCartRequest) (n : String) (o : OrderRow)
    (hfresh : ∀ ci ∈ db.cartItems, ci.cartId < db.nextId)
    (h : (checkoutFromCart db u creq n).2 = .ok o) :
    ∃ c a, findCart db u = some c ∧
      (itemsOfCart db c.id).foldl (fun acc it => acc ++ checkCartItem db it) [] = [] ∧
      itemsOfCart db c.id ≠ [] ∧
      findAddress db creq.shippingAddressId u = some a ∧
      o = checkoutOrderOf db u creq.shippingAddressId n (itemsOfCart db c.id) ∧
      (checkoutFromCart db u creq n).1 = checkoutStateOf db u o (itemsOfCart db c.id) := by
  cases hc : findCart db u with
  | none =>
    rw [checkoutFromCart_eq_noCart db u creq n hc hfresh] at h
    simp at h
  | some c =>
    by_cases hiss :
        (itemsOfCart db c.id).foldl (fun acc it => acc ++ checkCartItem db it) [] = []
    · by_cases hne : itemsOfCart db c.id = []
      · rw [checkoutFromCart_eq_emptyCart db u creq n c hc hne] at h
        simp at h
      · cases ha : findAddress db creq.shippingAddressId u with
        | none =>
          rw [checkoutFromCart_eq_addrNone db u creq n c hc hiss hne ha] at h
          simp at h
        | some a =>
          rw [checkoutFromCart_eq_of db u creq n c a hc hiss hne ha] at h
          simp only [Except.ok.injEq] at h
          subst h
          exact ⟨c, a, rfl, hiss, hne, rfl, rfl, by
            rw [checkoutFromCart_eq_of db u creq n c a hc hiss hne ha]⟩
    · rw [checkoutFromCart_eq_invalid db u creq n c _ hc rfl hiss] at h
      simp at h

-- ===== Pointwise structure of the built order items =====

theorem createOrder_items_pairs (details : List ItemDetail) :
    ((details.map createOrderLine).map (fun l => l.1)).map
        (fun i => (i.productId, i.quantity))
      = details.map (fun d => (d.product.id, d.quantity)) := by
  simp only [List.map_map]
  rfl

theorem createOrder_itemsSubtotal (details : List ItemDetail) :
    itemsSubtotal ((details.map createOrderLine).map (fun l => l.1))
      = ((details.map createOrderLine).map (fun l => l.2.1)).sum := by
  simp only [itemsSubtotal, List.map_map]
  rfl

theorem createOrder_itemsDeliveryTotal (details : List ItemDetail) :
    itemsDeliveryTotal ((details.map createOrderLine).map (fun l => l.1))
      = ((details.map createOrderLine).map (fun l => l.2.2.2)).sum := by
  simp only [itemsDeliveryTotal, List.map_map]
  rfl

theorem checkout_items_pairs (db : DB) (cis : List CartItemRow) :
    ((cis.map (checkoutLine db)).map (fun l => l.1)).map
        (fun i => (i.productId, i.quantity))
      = cis.map (fun ci => (ci.productId, ci.quantity)) := by
  simp only [List.map_map]
  rfl

theorem checkout_itemsSubtotal (db : DB) (cis : List CartItemRow) :
    itemsSubtotal ((cis.map (checkoutLine db)).map (fun l => l.1))
      = ((cis.map (checkoutLine db)).map (fun l => l.2.1)).sum := by
  simp only [itemsSubtotal, List.map_map]
  rfl

theorem checkout_itemsDeliveryTotal (db : DB) (cis : List CartItemRow) :
    itemsDeliveryTotal ((cis.map (checkoutLine db)).map (fun l => l.1))
      = ((cis.map (checkoutLine db)).map (fun l => l.2.2)).sum := by
  simp only [itemsDeliveryTotal, List.map_map]
  rfl

-- ===== Claim C2 =====

/-- C2 — Order total invariant: for every order persisted by either creation
path (`createOrder` or `checkoutFromCart`), the stored `totalAmount` equals
`subtotalAmount - discountAmount + shippingFee` plus the per-item delivery
totals (sum over items of `deliveryCharge * quantity`), and `subtotalAmount`
is the sum over items of `unitPrice * quantity`. -/
theorem order_total_invariant (dbA dbB : DB) (uA uB : Nat)
    (req : CreateOrderRequest) (creq : CheckoutFromCartRequest) (nA nB : String)
    (oA oB : OrderRow)
    (hfresh : ∀ ci ∈ dbB.cartItems, ci.cartId < dbB.nextId) :
    ((createOrder dbA uA req nA).2 = .ok oA →
      oA.totalAmount = oA.subtotalAmount - oA.discountAmount + oA.shippingFee
        + itemsDeliveryTotal oA.items
      ∧ oA.subtotalAmount = itemsSubtotal oA.items)
    ∧ ((checkoutFromCart dbB uB creq nB).2 = .ok oB →
      oB.totalAmount = oB.subtotalAmount - oB.discountAmount + oB.shippingFee
        + itemsDeliveryTotal oB.items
      ∧ oB.subtotalAmount = itemsSubtotal oB.items) := by
  constructor
  · intro h
    obtain ⟨a, details, ha, hv, ho, hst⟩ := createOrder_ok_shape dbA uA req nA oA h
    subst ho
    constructor
    · show ((details.map createOrderLine).map (fun l => l.2.1)).sum
          - ((details.map createOrderLine).map (fun l => l.2.2.1)).sum
          + ((details.map createOrderLine).map (fun l => l.2.2.2)).sum + 0
        = ((details.map createOrderLine).map (fun l => l.2.1)).sum
          - ((details.map createOrderLine).map (fun l => l.2.2.1)).sum + 0
          + itemsDeliveryTotal ((details.map createOrderLine).map (fun l => l.1))
      rw [createOrder_itemsDeliveryTotal]
      ring
    · show ((details.map createOrderLine).map (fun l => l.2.1)).sum
        = itemsSubtotal ((details.map createOrderLine).map (fun l => l.1))
      rw [createOrder_itemsSubtotal]
  · intro h
    obtain ⟨c, a, hc, hiss, hne, ha, ho, hst⟩ :=
      checkoutFromCart_ok_shape dbB uB creq nB oB hfresh h
    subst ho
    constructor
    · show (((itemsOfCart dbB c.id).map (checkoutLine dbB)).map (fun l => l.2.1)).sum
          + (((itemsOfCart dbB c.id).map (checkoutLine dbB)).map (fun l => l.2.2)).sum
          + 0 - 0
        = (((itemsOfCart dbB c.id).map (checkoutLine dbB)).map (fun l => l.2.1)).sum
          - 0 + 0
          + itemsDeliveryTotal
              (((itemsOfCart dbB c.id).map (checkoutLine dbB)).map (fun l => l.1))
      rw [checkout_itemsDeliveryTotal]
      ring
    · show (((itemsOfCart dbB c.id).map (checkoutLine dbB)).map (fun l => l.2.1)).sum
        = itemsSubtotal
            (((itemsOfCart dbB c.id).map (checkoutLine dbB)).map (fun l => l.1))
      rw [checkout_itemsSubtotal]

-- ===== Cancellation compositions =====

theorem productStock_clearCart (db : DB) (u : Nat) (pid : Nat) :
    productStock (clearCartAfterOrder db u) pid = productStock db pid := by
  unfold clearCartAfterOrder
  cases findCart db u <;> rfl

theorem variantStock_clearCart (db : DB) (u : Nat) (vid : Nat) :
    variantStock (clearCartAfterOrder db u) vid = variantStock db vid := by
  unfold clearCartAfterOrder
  cases findCart db u <;> rfl

theorem create_then_cancel (db : DB) (u : Nat) (req : CreateOrderRequest)
    (n : String) (o : OrderRow)
    (hfresh : ∀ x ∈ db.orders, x.id < db.nextId)
    (h : (createOrder db u req n).2 = .ok o) :
    (cancelOrder (createOrder db u req n).1 o.id u).2.isOk = true
    ∧ ∀ pid, productStock (cancelOrder (createOrder db u req n).1 o.id u).1 pid
        = productStock db pid := by
  obtain ⟨a, details, ha, hv, ho, hst⟩ := createOrder_ok_shape db u req n o h
  subst ho
  rw [hst]
  have hordS : (createdStateOf db details (createdOrderOf db u req n details)).orders
      = db.orders ++ [createdOrderOf db u req n details] := by
    unfold createdStateOf
    exact foldl_preserve
      (fun acc d => decrementProductStock acc d.product.id d.quantity)
      DB.orders (fun d x => rfl) details _
  have hfind : findOrder (createdStateOf db details (createdOrderOf db u req n details))
      (createdOrderOf db u req n details).id
      = some (createdOrderOf db u req n details) := by
    show (createdStateOf db details (createdOrderOf db u req n details)).orders.find?
        (fun x => x.id == (createdOrderOf db u req n details).id)
      = some (createdOrderOf db u req n details)
    rw [hordS]
    apply findOrder_append_fresh
    intro x hx
    have := hfresh x hx
    show x.id ≠ db.nextId
    omega
  have hcancel := cancelOrder_eq_pending
    (createdStateOf db details (createdOrderOf db u req n details))
    (createdOrderOf db u req n details).id u
    (createdOrderOf db u req n details) hfind rfl rfl
  rw [hcancel]
  refine ⟨rfl, ?_⟩
  intro pid
  show productStock
      ((createdOrderOf db u req n details).items.foldl
        (fun acc item => incrementProductStock acc item.productId item.quantity)
        (createdStateOf db details (createdOrderOf db u req n details))) pid
    = productStock db pid
  rw [productStock_foldl_inc (α := OrderItemRow) (fun i => i.productId)
    (fun i => i.quantity)]
  show (productStock
      (details.foldl (fun acc d => decrementProductStock acc d.product.id d.quantity)
        { db with
          orders := db.orders ++ [createdOrderOf db u req n details]
          nextId := db.nextId + 1 }) pid).map _
    = productStock db pid
  rw [productStock_foldl_dec (α := ItemDetail) (fun d => d.product.id)
    (fun d => d.quantity)]
  rw [show productStock
      { db with
        orders := db.orders ++ [createdOrderOf db u req n details]
        nextId := db.nextId + 1 } pid = productStock db pid from rfl]
  have hTeq :
      (((createdOrderOf db u req n details).items.filter
        (fun x => x.productId == pid)).map (fun x => x.quantity)).sum
      = ((details.filter (fun x => x.product.id == pid)).map (fun x => x.quantity)).sum := by
    rw [show (createdOrderOf db u req n details).items
        = (details.map createOrderLine).map (fun l => l.1) from rfl]
    rw [filter_sum_pairs (α := OrderItemRow) _ (fun i => i.productId)
        (fun i => i.quantity),
      createOrder_items_pairs,
      ← filter_sum_pairs (α := ItemDetail) details (fun d => d.product.id)
        (fun d => d.quantity)]
  rw [Option.map_map]
  cases hsp : productStock db pid with
  | none => rfl
  | some s => simp [hTeq]

theorem filter_isSome_getD (cis : List CartItemRow) (vid : Nat) :
    (cis.filter (fun it => it.variantId.isSome)).filter
        (fun it => it.variantId.getD 0 == vid)
      = cis.filter (fun ci => ci.variantId == some vid) := by
  induction cis with
  | nil => rfl
  | cons a l ih =>
    rw [List.filter_cons, List.filter_cons]
    cases hv : a.variantId with
    | none => simp [hv, ih]
    | some w =>
      by_cases hw : w = vid
      · subst hw
        simp [hv, List.filter_cons, ih]
      · simp [hv, List.filter_cons, ih, hw]

theorem checkout_then_cancel (db : DB) (u : Nat) (creq : CheckoutFromCartRequest)
    (n : String) (o : OrderRow)
    (hfreshO : ∀ x ∈ db.orders, x.id < db.nextId)
    (hfreshCI : ∀ ci ∈ db.cartItems, ci.cartId < db.nextId)
    (h : (checkoutFromCart db u creq n).2 = .ok o) :
    (cancelOrder (checkoutFromCart db u creq n).1 o.id u).2.isOk = true
    ∧ (∀ pid, productStock (cancelOrder (checkoutFromCart db u creq n).1 o.id u).1 pid
        = productStock db pid)
    ∧ (∀ vid, variantStock (cancelOrder (checkoutFromCart db u creq n).1 o.id u).1 vid
        = (variantStock db vid).map
            (fun s => s - cartVariantQty (getCartItemsForOrder db u) vid)) := by
  obtain ⟨c, a, hc, hiss, hne, ha, ho, hst⟩ :=
    checkoutFromCart_ok_shape db u creq n o hfreshCI h
  subst ho
  rw [hst]
  have hgci : getCartItemsForOrder db u = itemsOfCart db c.id := by
    unfold getCartItemsForOrder
    rw [hc]
  have hordS :
      (checkoutStateOf db u
        (checkoutOrderOf db u creq.shippingAddressId n (itemsOfCart db c.id))
        (itemsOfCart db c.id)).orders
      = db.orders ++ [checkoutOrderOf db u creq.shippingAddressId n (itemsOfCart db c.id)] := by
    unfold checkoutStateOf
    rw [(clearCartAfterOrder_frame _ _).2.2.1]
    rw [foldl_preserve (α := CartItemRow)
      (fun acc it => decrementVariantStock acc (it.variantId.getD 0) it.quantity)
      DB.orders (fun d x => rfl) _ _]
    exact foldl_preserve (α := CartItemRow)
      (fun acc it => decrementProductStock acc it.productId it.quantity)
      DB.orders (fun d x => rfl) _ _
  have hfind : findOrder
      (checkoutStateOf db u
        (checkoutOrderOf db u creq.shippingAddressId n (itemsOfCart db c.id))
        (itemsOfCart db c.id))
      (checkoutOrderOf db u creq.shippingAddressId n (itemsOfCart db c.id)).id
      = some (checkoutOrderOf db u creq.shippingAddressId n (itemsOfCart db c.id)) := by
    show (checkoutStateOf db u
        (checkoutOrderOf db u creq.shippingAddressId n (itemsOfCart db c.id))
        (itemsOfCart db c.id)).orders.find?
        (fun x => x.id ==
          (checkoutOrderOf db u creq.shippingAddressId n (itemsOfCart db c.id)).id)
      = some (checkoutOrderOf db u creq.shippingAddressId n (itemsOfCart db c.id))
    rw [hordS]
    apply findOrder_append_fresh
    intro x hx
    have := hfreshO x hx
    show x.id ≠ db.nextId
    omega
  have hcancel := cancelOrder_eq_pending
    (checkoutStateOf db u
      (checkoutOrderOf db u creq.shippingAddressId n (itemsOfCart db c.id))
      (itemsOfCart db c.id))
    (checkoutOrderOf db u creq.shippingAddressId n (itemsOfCart db c.id)).id u
    (checkoutOrderOf db u creq.shippingAddressId n (itemsOfCart db c.id)) hfind rfl rfl
  rw [hcancel]
  refine ⟨rfl, ?_, ?_⟩
  · intro pid
    show productStock
        ((checkoutOrderOf db u creq.shippingAddressId n (itemsOfCart db c.id)).items.foldl
          (fun acc item => incrementProductStock acc item.productId item.quantity)
          (checkoutStateOf db u
            (checkoutOrderOf db u creq.shippingAddressId n (itemsOfCart db c.id))
            (itemsOfCart db c.id))) pid
      = productStock db pid
    rw [productStock_foldl_inc (α := OrderItemRow) (fun i => i.productId)
      (fun i => i.quantity)]
    unfold checkoutStateOf
    rw [productStock_clearCart]
    rw [foldl_preserve (α := CartItemRow)
      (fun acc it => decrementVariantStock acc (it.variantId.getD 0) it.quantity)
      (fun d => productStock d pid) (fun d x => rfl) _ _]
    rw [productStock_foldl_dec (α := CartItemRow) (fun it => it.productId)
      (fun it => it.quantity)]
    rw [show productStock
        { db with
          orders := db.orders ++
            [checkoutOrderOf db u creq.shippingAddressId n (itemsOfCart db c.id)]
          nextId := db.nextId + 1 } pid = productStock db pid from rfl]
    have hTeq :
        (((checkoutOrderOf db u creq.shippingAddressId n (itemsOfCart db c.id)).items.filter
          (fun x => x.productId == pid)).map (fun x => x.quantity)).sum
        = (((itemsOfCart db c.id).filter (fun x => x.productId == pid)).map
            (fun x => x.quantity)).sum := by
      rw [show (checkoutOrderOf db u creq.shippingAddressId n (itemsOfCart db c.id)).items
          = ((itemsOfCart db c.id).map (checkoutLine db)).map (fun l => l.1) from rfl]
      rw [filter_sum_pairs (α := OrderItemRow) _ (fun i => i.productId)
          (fun i => i.quantity),
        checkout_items_pairs,
        ← filter_sum_pairs (α := CartItemRow) (itemsOfCart db c.id)
          (fun it => it.productId) (fun it => it.quantity)]
    rw [Option.map_map]
    cases hsp : productStock db pid with
    | none => rfl
    | some s => simp [hTeq]
  · intro vid
    rw [hgci]
    show variantStock
        ((checkoutOrderOf db u creq.shippingAddressId n (itemsOfCart db c.id)).items.foldl
          (fun acc item => incrementProductStock acc item.productId item.quantity)
          (checkoutStateOf db u
            (checkoutOrderOf db u creq.shippingAddressId n (itemsOfCart db c.id))
            (itemsOfCart db c.id))) vid
      = (variantStock db vid).map
          (fun s => s - cartVariantQty (itemsOfCart db c.id) vid)
    rw [foldl_preserve (α := OrderItemRow)
      (fun acc item => incrementProductStock acc item.productId item.quantity)
      (fun d => variantStock d vid) (fun d x => rfl) _ _]
    unfold checkoutStateOf
    rw [variantStock_clearCart]
    rw [variantStock_foldl_dec (α := CartItemRow) (fun it => it.variantId.getD 0)
      (fun it => it.quantity)]
    rw [foldl_preserve (α := CartItemRow)
      (fun acc it => decrementProductStock acc it.productId it.quantity)
      (fun d => variantStock d vid) (fun d x => rfl) _ _]
    rw [show variantStock
        { db with
          orders := db.orders ++
            [checkoutOrderOf db u creq.shippingAddressId n (itemsOfCart db c.id)]
          nextId := db.nextId + 1 } vid = variantStock db vid from rfl]
    rw [filter_isSome_getD]
    rfl

theorem cancelOrder_variants (db : DB) (oid u : Nat) :
    (cancelOrder db oid u).1.variants = db.variants := by
  unfold cancelOrder
  split
  · rfl
  · split
    · rfl
    · split
      · rfl
      · split
        · rfl
        · exact foldl_preserve (α := OrderItemRow)
            (fun acc item => incrementProductStock acc item.productId item.quantity)
            DB.variants (fun d x => rfl) _ _

-- ===== Claim C4 =====

/-- C4 — Cancellation restores exactly what was decremented: for every order
created by `createOrder` or by `checkoutFromCart` and then immediately
cancelled via `cancelOrder` with no intervening mutation, the cancellation
succeeds and each product's stock after cancellation equals its stock before
order creation. -/
theorem cancel_restores_product_stock (dbA dbB : DB) (uA uB : Nat)
    (req : CreateOrderRequest) (creq : CheckoutFromCartRequest) (nA nB : String)
    (oA oB : OrderRow)
    (hA : ∀ x ∈ dbA.orders, x.id < dbA.nextId)
    (hB : ∀ x ∈ dbB.orders, x.id < dbB.nextId)
    (hBci : ∀ ci ∈ dbB.cartItems, ci.cartId < dbB.nextId) :
    ((createOrder dbA uA req nA).2 = .ok oA →
      (cancelOrder (createOrder dbA uA req nA).1 oA.id uA).2.isOk = true
      ∧ ∀ pid, productStock (cancelOrder (createOrder dbA uA req nA).1 oA.id uA).1 pid
          = productStock dbA pid)
    ∧ ((checkoutFromCart dbB uB creq nB).2 = .ok oB →
      (cancelOrder (checkoutFromCart dbB uB creq nB).1 oB.id uB).2.isOk = true
      ∧ ∀ pid, productStock (cancelOrder (checkoutFromCart dbB uB creq nB).1 oB.id uB).1 pid
          = productStock dbB pid) := by
  constructor
  · intro h
    exact create_then_cancel dbA uA req nA oA hA h
  · intro h
    obtain ⟨hok, hprod, hvar⟩ := checkout_then_cancel dbB uB creq nB oB hB hBci h
    exact ⟨hok, hprod⟩

-- ===== Claim C10 =====

/-- C10 — `cancelOrder` never restores variant stock: the variants table is
untouched by any `cancelOrder` call; consequently, for an order placed via
`checkoutFromCart` (which decrements both product and variant stock for a
variant line) and then cancelled, every variant's stock remains lower by the
ordered quantity while every product's stock is restored. -/
theorem cancel_never_touches_variant_stock (db dbB : DB) (oid u uB : Nat)
    (creq : CheckoutFromCartRequest) (nB : String) (oB : OrderRow)
    (hB : ∀ x ∈ dbB.orders, x.id < dbB.nextId)
    (hBci : ∀ ci ∈ dbB.cartItems, ci.cartId < dbB.nextId) :
    (cancelOrder db oid u).1.variants = db.variants
    ∧ ((checkoutFromCart dbB uB creq nB).2 = .ok oB →
      (cancelOrder (checkoutFromCart dbB uB creq nB).1 oB.id uB).2.isOk = true
      ∧ (∀ vid, variantStock (cancelOrder (checkoutFromCart dbB uB creq nB).1 oB.id uB).1 vid
          = (variantStock dbB vid).map
              (fun s => s - cartVariantQty (getCartItemsForOrder dbB uB) vid))
      ∧ (∀ pid, productStock (cancelOrder (checkoutFromCart dbB uB creq nB).1 oB.id uB).1 pid
          = productStock dbB pid)) := by
  constructor
  · exact cancelOrder_variants db oid u
  · intro h
    obtain ⟨hok, hprod, hvar⟩ := checkout_then_cancel dbB uB creq nB oB hB hBci h
    exact ⟨hok, hvar, hprod⟩

-- ===== Claim C5 =====

/-- C5 — Terminal-state immutability of `cancelOrder`: for an order in
CANCELLED, SHIPPED or DELIVERED status the call fails with the corresponding
invalid-state error and the whole state is returned unchanged; likewise it
fails `orderNotFound` for a missing order and `notOrderOwner` for a caller
who does not own it, with no mutation in any of these cases. -/
theorem cancelOrder_terminal_immutable (db : DB) (oid u : Nat) :
    (findOrder db oid = none → cancelOrder db oid u = (db, .error .orderNotFound))
    ∧ (∀ o, findOrder db oid = some o →
        (o.userId ≠ u → cancelOrder db oid u = (db, .error .notOrderOwner))
        ∧ (o.userId = u → o.status = .CANCELLED →
            cancelOrder db oid u = (db, .error .orderAlreadyCancelled))
        ∧ (o.userId = u → (o.status = .SHIPPED ∨ o.status = .DELIVERED) →
            cancelOrder db oid u = (db, .error .orderShippedOrDelivered))) := by
  refine ⟨?_, ?_⟩
  · intro h
    simp only [cancelOrder, h]
  · intro o ho
    refine ⟨?_, ?_, ?_⟩
    · intro hne
      simp only [cancelOrder, ho, if_pos hne]
    · intro hu hst
      have h1 : ¬ o.userId ≠ u := by simp [hu]
      simp only [cancelOrder, ho, if_neg h1, if_pos hst]
    · intro hu hst
      have h1 : ¬ o.userId ≠ u := by simp [hu]
      have h2 : ¬ o.status = OrderStatus.CANCELLED := by
        rcases hst with hh | hh <;> (rw [hh]; intro hx; cases hx)
      simp only [cancelOrder, ho, if_neg h1, if_neg h2, if_pos hst]

-- ===== Claim C6 =====

/-- C6 — Cart checkout honors the cart snapshot: for every order item created
by `checkoutFromCart`, the item's `unitPrice` equals the corresponding cart
item's `priceSnapshot` and its `deliveryCharge` equals the cart item's
`deliveryChargeSnapshot`, regardless of the product's live price, discount or
delivery charge at checkout time. -/
theorem checkout_honors_snapshot (db : DB) (u : Nat) (creq : CheckoutFromCartRequest)
    (n : String) (o : OrderRow)
    (hfresh : ∀ ci ∈ db.cartItems, ci.cartId < db.nextId)
    (h : (checkoutFromCart db u creq n).2 = .ok o) :
    List.Forall₂ (fun (oi : OrderItemRow) (ci : CartItemRow) =>
        oi.unitPrice = ci.priceSnapshot ∧ oi.deliveryCharge = ci.deliveryChargeSnapshot)
      o.items (getCartItemsForOrder db u) := by
  obtain ⟨c, a, hc, hiss, hne, ha, ho, hst⟩ :=
    checkoutFromCart_ok_shape db u creq n o hfresh h
  subst ho
  rw [show getCartItemsForOrder db u = itemsOfCart db c.id from by
    unfold getCartItemsForOrder
    rw [hc]]
  show List.Forall₂ _ (((itemsOfCart db c.id).map (checkoutLine db)).map (fun l => l.1))
    (itemsOfCart db c.id)
  rw [List.map_map, List.forall₂_map_left_iff, List.forall₂_same]
  intro x hx
  exact ⟨rfl, rfl⟩

-- ===== Claim C3 =====

/-- C3 amended — In the direct order-creation path, for an item carrying a
`variantId` (once its product is found with sufficient stock): the call fails
with `variantNotFound` when the variant does not exist and with
`insufficientVariantStock` when the variant's stock is below the requested
quantity, and in both cases the state is unchanged and no order is created.
(The source does not check that the variant belongs to the requested
product, so that part of the original claim fails — see the
counterexample.) -/
theorem createOrder_variant_checks (db : DB) (u aid : Nat) (n : String)
    (item : OrderItemRequest) (p : Product) (vid : Nat) (a : OrderAddress)
    (ha : findAddress db aid u = some a)
    (hvid : item.variantId = some vid)
    (hp : findProduct db item.productId = some p)
    (hstock : ¬ p.stock < item.quantity) :
    (findVariant db vid = none →
      createOrder db u { items := [item], shippingAddressId := aid } n
        = (db, .error (.variantNotFound vid)))
    ∧ (∀ v, findVariant db vid = some v → v.stock < item.quantity →
      createOrder db u { items := [item], shippingAddressId := aid } n
        = (db, .error (.insufficientVariantStock vid))) := by
  constructor
  · intro hv
    apply createOrder_eq_itemsErr db u _ n a _ ha
    show validateOrderItems db [item] = .error (.variantNotFound vid)
    simp only [validateOrderItems, validateOrderItem, hp, hstock, if_false, hvid, hv]
  · intro v hv hvs
    apply createOrder_eq_itemsErr db u _ n a _ ha
    show validateOrderItems db [item] = .error (.insufficientVariantStock vid)
    simp only [validateOrderItems, validateOrderItem, hp, hstock, if_false, hvid, hv,
      hvs, if_true]

/-- The database of the C3 counterexample: product 1 (the one being ordered)
has no variants; variant 5 belongs to a different product (product 2). -/
def dbC3 : DB :=
  { products :=
      [{ id := 1, shopId := 1, price := 100, discount := none,
         deliveryCharge := 0, stock := 10, status := .ACTIVE },
       { id := 2, shopId := 1, price := 50, discount := none,
         deliveryCharge := 0, stock := 10, status := .ACTIVE }]
    variants := [{ id := 5, productId := 2, priceDiff := none, stock := 10 }]
    addresses := [{ id := 1, userId := 1 }]
    orders := []
    carts := []
    cartItems := []
    nextId := 100 }

def reqC3 : CreateOrderRequest :=
  { items := [{ productId := 1, variantId := some 5, quantity := 1 }]
    shippingAddressId := 1 }

/-- C3 counterexample — the claim says `createOrder` fails `NotFound` when
the requested variant does not belong to the requested product; in the code
the request succeeds even though variant 5 belongs to product 2 while the
item orders product 1. -/
theorem createOrder_foreign_variant_accepted :
    (findVariant dbC3 5).map (fun v => v.productId) = some 2
    ∧ (reqC3.items.map (fun i => i.productId)) = [1]
    ∧ (createOrder dbC3 1 reqC3 "X").2.isOk = true := by
  refine ⟨rfl, rfl, rfl⟩

-- ===== Claim C1 =====

def dbC1 : DB :=
  { products :=
      [{ id := 1, shopId := 1, price := 100, discount := none,
         deliveryCharge := 0, stock := 5, status := .ACTIVE }]
    variants := []
    addresses := [{ id := 1, userId := 1 }]
    orders := []
    carts := []
    cartItems := []
    nextId := 100 }

def reqC1 : CreateOrderRequest :=
  { items :=
      [{ productId := 1, variantId := none, quantity := 3 },
       { productId := 1, variantId := none, quantity := 3 }]
    shippingAddressId := 1 }

/-- C1 — the stock-never-negative claim fails on the code: a single
`createOrder` with two items for the same product (stock 5, quantities 3 and
3) passes every `InsufficientStock` pre-check (both checks read the same
pre-write stock), the order is accepted, and the two unconditional
decrements leave the product's stock at -1. -/
theorem stock_goes_negative_on_duplicate_items :
    (createOrder dbC1 1 reqC1 "ORD").2.isOk = true
    ∧ productStock dbC1 1 = some 5
    ∧ productStock (createOrder dbC1 1 reqC1 "ORD").1 1 = some (-1) := by
  refine ⟨rfl, rfl, rfl⟩

-- ===== Claim C8 =====

/-- C8 amended — `validateCartForCheckout` never modifies products, variants,
cart items or orders, and for a user who already has a cart it leaves the
whole state unchanged; its only mutation is the lazy creation of an empty
cart row (via `getOrCreateCart`) for a user who has none. -/
theorem validateCart_readonly_except_lazy_cart (db : DB) (u : Nat) :
    (validateCartForCheckout db u).1.products = db.products
    ∧ (validateCartForCheckout db u).1.variants = db.variants
    ∧ (validateCartForCheckout db u).1.cartItems = db.cartItems
    ∧ (validateCartForCheckout db u).1.orders = db.orders
    ∧ (∀ c, findCart db u = some c → (validateCartForCheckout db u).1 = db)
    ∧ (findCart db u = none →
        (validateCartForCheckout db u).1.carts
          = db.carts ++ [{ id := db.nextId, userId := u }]) := by
  unfold validateCartForCheckout getOrCreateCart
  cases hc : findCart db u with
  | some c =>
    refine ⟨rfl, rfl, rfl, rfl, ?_, ?_⟩
    · intro c' hc'
      rfl
    · intro h
      exact nomatch h
  | none =>
    refine ⟨rfl, rfl, rfl, rfl, ?_, ?_⟩
    · intro c' hc'
      exact nomatch hc'
    · intro h
      rfl

def dbC8 : DB :=
  { products := [], variants := [], addresses := [], orders := [], carts := []
    cartItems := [], nextId := 7 }

/-- C8 counterexample — the claim says the call leaves all state unchanged,
including for a user who has no cart yet; in the code the call creates a
cart row for such a user: on an empty database it leaves one new cart
behind. -/
theorem validateCart_creates_cart :
    dbC8.carts.length = 0
    ∧ (validateCartForCheckout dbC8 1).1.carts.length = 1
    ∧ (validateCartForCheckout dbC8 1).1 ≠ dbC8 := by
  refine ⟨rfl, rfl, ?_⟩
  decide

-- ===== Claim C9 =====

theorem isAsciiDigit_natDigitChar (k : Nat) : isAsciiDigit (natDigitChar k) = true := by
  unfold natDigitChar isAsciiDigit
  have h : k % 10 < 10 := Nat.mod_lt _ (by omega)
  interval_cases h : k % 10 <;> decide

theorem isUpperBase36_of_digit :
    ∀ dg : Fin 36, isUpperBase36 (jsToUpper (base36Char dg)) = true := by decide

theorem matchesRelaxed_build (dateStr suffix : List Char)
    (hlen : dateStr.length = 8) (hdate : dateStr.all isAsciiDigit = true)
    (hsuf : suffix.all isUpperBase36 = true) (hslen : suffix.length ≤ 6) :
    matchesRelaxedOrderNumberPattern
      (('O' :: 'R' :: 'D' :: '-' :: dateStr) ++ ('-' :: suffix)) = true := by
  show ((((dateStr ++ '-' :: suffix).take 8).length == 8
      && ((dateStr ++ '-' :: suffix).take 8).all isAsciiDigit)
    && (match (dateStr ++ '-' :: suffix).drop 8 with
        | '-' :: suffix => decide (suffix.length ≤ 6) && suffix.all isUpperBase36
        | _ => false)) = true
  rw [show (8 : Nat) = dateStr.length from hlen.symm, List.take_left, List.drop_left]
  simp [hdate, hsuf, hslen, hlen]

theorem matchesExact_build (dateStr suffix : List Char)
    (hlen : dateStr.length = 8) (hdate : dateStr.all isAsciiDigit = true)
    (hsuf : suffix.all isUpperBase36 = true) (hslen : suffix.length = 6) :
    matchesOrderNumberPattern
      (('O' :: 'R' :: 'D' :: '-' :: dateStr) ++ ('-' :: suffix)) = true := by
  show ((((dateStr ++ '-' :: suffix).take 8).length == 8
      && ((dateStr ++ '-' :: suffix).take 8).all isAsciiDigit)
    && (match (dateStr ++ '-' :: suffix).drop 8 with
        | '-' :: suffix => suffix.length == 6 && suffix.all isUpperBase36
        | _ => false)) = true
  rw [show (8 : Nat) = dateStr.length from hlen.symm, List.take_left, List.drop_left]
  simp [hdate, hsuf, hslen, hlen]

theorem dateStr_length (y m d : Nat) : (pad4 y ++ pad2 m ++ pad2 d).length = 8 := rfl

theorem dateStr_digits (y m d : Nat) :
    (pad4 y ++ pad2 m ++ pad2 d).all isAsciiDigit = true := by
  simp [pad4, pad2, isAsciiDigit_natDigitChar]

/-- C9 amended — every generated order number has the shape
`ORD-` + 8 decimal digits + `-` + at most six `[A-Z0-9]` characters
(the relaxed pattern `^ORD-\d{8}-[A-Z0-9]{0,6}$`), and the suffix has
exactly six characters precisely when the random double's base-36 expansion
carries at least six fractional digits.  The date-field hypotheses record
the envelope in which the `toISOString` model is faithful. -/
theorem orderNumber_format (y m d : Nat) (frac : List (Fin 36))
    (hy : y ≤ 9999) (hm : m ≤ 99) (hd : d ≤ 99) :
    matchesRelaxedOrderNumberPattern (generateOrderNumberChars y m d frac) = true
    ∧ (6 ≤ frac.length →
        matchesOrderNumberPattern (generateOrderNumberChars y m d frac) = true) := by
  have hsuffix :
      (((jsToString36 frac).drop 2).take 6).map jsToUpper
        = (frac.take 6).map (fun dg => jsToUpper (base36Char dg)) := by
    cases frac with
    | nil => rfl
    | cons d0 ds =>
      show ((((d0 :: ds).map base36Char).take 6).map jsToUpper) = _
      rw [← List.map_take, List.map_map]
      rfl
  have hall :
      ((((jsToString36 frac).drop 2).take 6).map jsToUpper).all isUpperBase36 = true := by
    rw [hsuffix, List.all_eq_true]
    intro x hx
    obtain ⟨dg, hdg, rfl⟩ := List.mem_map.mp hx
    exact isUpperBase36_of_digit dg
  have hlen6 :
      ((((jsToString36 frac).drop 2).take 6).map jsToUpper).length
        = min 6 frac.length := by
    rw [hsuffix, List.length_map, List.length_take]
  constructor
  · exact matchesRelaxed_build _ _ (dateStr_length y m d) (dateStr_digits y m d)
      hall (by rw [hlen6]; omega)
  · intro h6
    exact matchesExact_build _ _ (dateStr_length y m d) (dateStr_digits y m d)
      hall (by rw [hlen6]; omega)

/-- C9 counterexample — the claim requires exactly six suffix characters for
every value of the random source; `Math.random()` can return the double 0.5,
whose base-36 expansion is the single digit `i` (`(0.5).toString(36)` is
`"0.i"`), so the generated order number is `ORD-20251011-I` with a one-char
suffix, which the pattern `^ORD-\d{8}-[A-Z0-9]{6}$` rejects. -/
theorem orderNumber_short_suffix :
    matchesOrderNumberPattern (generateOrderNumberChars 2025 10 11 [(18 : Fin 36)])
      = false
    ∧ generateOrderNumber 2025 10 11 [(18 : Fin 36)] = "ORD-20251011-I" := by
  refine ⟨by decide, ?_⟩
  rfl

-- ===== Claim C7 =====

theorem findProduct_congr (db1 db2 : DB) (pid : Nat)
    (h : db1.products = db2.products) : findProduct db1 pid = findProduct db2 pid := by
  unfold findProduct
  rw [h]

theorem availableStockFor_congr (db1 db2 : DB) (pid : Nat) (vid : Option Nat)
    (hP : db1.products = db2.products) (hV : db1.variants = db2.variants) :
    availableStockFor db1 pid vid = availableStockFor db2 pid vid := by
  unfold availableStockFor findProduct findVariant
  rw [hP, hV]

theorem resolveCartVariant_of_avail (db : DB) (pid : Nat) (vid : Option Nat)
    (p : Product) (s : Int)
    (hp : findProduct db pid = some p)
    (hs : availableStockFor db pid vid = some s) :
    ∃ variant, resolveCartVariant db pid vid = .ok variant
      ∧ (match variant with | some v => v.stock | none => p.stock) = s := by
  unfold availableStockFor at hs
  rw [hp] at hs
  cases vid with
  | none =>
    refine ⟨none, rfl, ?_⟩
    simpa using hs
  | some v =>
    simp only [] at hs
    cases hv : findVariant db v with
    | none =>
      rw [hv] at hs
      simp at hs
    | some vr =>
      rw [hv] at hs
      simp only [] at hs
      by_cases hvp : vr.productId = pid
      · rw [if_pos hvp] at hs
        refine ⟨some vr, ?_, by simpa using hs⟩
        unfold resolveCartVariant
        simp only []
        rw [hv]
        simp only []
        rw [if_neg (by simp [hvp])]
      · rw [if_neg hvp] at hs
        simp at hs

theorem addToCart_fresh (db : DB) (u : Nat) (d : AddToCartRequest) (p : Product)
    (s : Int)
    (hp : findProduct db d.productId = some p)
    (hact : p.status = .ACTIVE)
    (hs : availableStockFor db d.productId d.variantId = some s)
    (hq : ¬ d.quantity > s)
    (hempty : userPairItems db u d.productId d.variantId = [])
    (hfreshCI : ∀ ci ∈ db.cartItems, ci.cartId < db.nextId) :
    (addToCart db u d).2 = .ok ()
    ∧ (addToCart db u d).1.products = db.products
    ∧ (addToCart db u d).1.variants = db.variants
    ∧ ∃ item : CartItemRow,
        userPairItems (addToCart db u d).1 u d.productId d.variantId = [item]
        ∧ item.quantity = d.quantity := by
  obtain ⟨variant, hvr, hsv⟩ := resolveCartVariant_of_avail db d.productId d.variantId p s hp hs
  have hact2 : ¬ p.status ≠ ProductStatus.ACTIVE := by simp [hact]
  have heval : addToCart db u d
      = cartUpsert (getOrCreateCart db u).1 (getOrCreateCart db u).2 d s
          (p.price - (p.discount.getD 0) + (variant.bind (fun v => v.priceDiff)).getD 0)
          p.deliveryCharge := by
    simp only [addToCart, hp, if_neg hact2, hvr, hsv, if_neg hq]
  cases hc : findCart db u with
  | some c =>
    have hg : getOrCreateCart db u = (db, c) := by
      unfold getOrCreateCart
      rw [hc]
    have hfilter : db.cartItems.filter (fun ci =>
        ci.cartId == c.id && ci.productId == d.productId
          && ci.variantId == d.variantId) = [] := by
      unfold userPairItems at hempty
      rw [hc] at hempty
      exact hempty
    have hfind : db.cartItems.find? (fun ci =>
        ci.cartId == c.id && ci.productId == d.productId
          && ci.variantId == d.variantId) = none := by
      rw [List.find?_eq_none]
      intro x hx
      have := List.filter_eq_nil_iff.mp hfilter x hx
      simpa using this
    have hup : addToCart db u d
        = ({ db with
             cartItems := db.cartItems ++
               [{ id := db.nextId
                  cartId := c.id
                  productId := d.productId
                  variantId := d.variantId
                  quantity := d.quantity
                  priceSnapshot := p.price - (p.discount.getD 0)
                    + (variant.bind (fun v => v.priceDiff)).getD 0
                  deliveryChargeSnapshot := p.deliveryCharge }]
             nextId := db.nextId + 1 },
           .ok ()) := by
      rw [heval, hg]
      unfold cartUpsert
      rw [hfind]
    rw [hup]
    refine ⟨rfl, rfl, rfl, ?_⟩
    refine ⟨{ id := db.nextId
              cartId := c.id
              productId := d.productId
              variantId := d.variantId
              quantity := d.quantity
              priceSnapshot := p.price - (p.discount.getD 0)
                + (variant.bind (fun v => v.priceDiff)).getD 0
              deliveryChargeSnapshot := p.deliveryCharge }, ?_, rfl⟩
    unfold userPairItems
    rw [show findCart ({ db with
        cartItems := db.cartItems ++
          [{ id := db.nextId
             cartId := c.id
             productId := d.productId
             variantId := d.variantId
             quantity := d.quantity
             priceSnapshot := p.price - (p.discount.getD 0)
               + (variant.bind (fun v => v.priceDiff)).getD 0
             deliveryChargeSnapshot := p.deliveryCharge }]
        nextId := db.nextId + 1 } : DB) u = some c from hc]
    simp only []
    rw [List.filter_append, hfilter]
    simp
  | none =>
    have hg : getOrCreateCart db u
        = ({ db with
             carts := db.carts ++ [{ id := db.nextId, userId := u }]
             nextId := db.nextId + 1 },
           { id := db.nextId, userId := u }) := by
      unfold getOrCreateCart
      rw [hc]
    have hfind : db.cartItems.find? (fun ci =>
        ci.cartId == (db.nextId : Nat) && ci.productId == d.productId
          && ci.variantId == d.variantId) = none := by
      rw [List.find?_eq_none]
      intro x hx
      have := hfreshCI x hx
      have hne : (x.cartId == db.nextId) = false := by
        rw [beq_eq_false_iff_ne]
        omega
      simp [hne]
    have hup : addToCart db u d
        = ({ db with
             carts := db.carts ++ [{ id := db.nextId, userId := u }]
             cartItems := db.cartItems ++
               [{ id := db.nextId + 1
                  cartId := db.nextId
                  productId := d.productId
                  variantId := d.variantId
                  quantity := d.quantity
                  priceSnapshot := p.price - (p.discount.getD 0)
                    + (variant.bind (fun v => v.priceDiff)).getD 0
                  deliveryChargeSnapshot := p.deliveryCharge }]
             nextId := db.nextId + 1 + 1 },
           .ok ()) := by
      rw [heval, hg]
      unfold cartUpsert
      rw [hfind]
    rw [hup]
    refine ⟨rfl, rfl, rfl, ?_⟩
    refine ⟨{ id := db.nextId + 1
              cartId := db.nextId
              productId := d.productId
              variantId := d.variantId
              quantity := d.quantity
              priceSnapshot := p.price - (p.discount.getD 0)
                + (variant.bind (fun v => v.priceDiff)).getD 0
              deliveryChargeSnapshot := p.deliveryCharge }, ?_, rfl⟩
    unfold userPairItems
    have hcnew : findCart ({ db with
        carts := db.carts ++ [{ id := db.nextId, userId := u }]
        cartItems := db.cartItems ++
          [{ id := db.nextId + 1
             cartId := db.nextId
             productId := d.productId
             variantId := d.variantId
             quantity := d.quantity
             priceSnapshot := p.price - (p.discount.getD 0)
               + (variant.bind (fun v => v.priceDiff)).getD 0
             deliveryChargeSnapshot := p.deliveryCharge }]
        nextId := db.nextId + 1 + 1 } : DB) u
        = some { id := db.nextId, userId := u } := by
      show (db.carts ++ [({ id := db.nextId, userId := u } : CartRow)]).find?
          (fun c => c.userId == u) = some ({ id := db.nextId, userId := u } : CartRow)
      rw [List.find?_append]
      have h0 : db.carts.find? (fun c => c.userId == u) = none := hc
      rw [h0]
      simp
    rw [hcnew]
    simp only []
    have hfilter0 : db.cartItems.filter (fun ci =>
        ci.cartId == (db.nextId : Nat) && ci.productId == d.productId
          && ci.variantId == d.variantId) = [] := by
      rw [List.filter_eq_nil_iff]
      intro x hx
      have := hfreshCI x hx
      have hne : (x.cartId == db.nextId) = false := by
        rw [beq_eq_false_iff_ne]
        omega
      simp [hne]
    rw [List.filter_append, hfilter0]
    simp

theorem addToCart_existing (db : DB) (u : Nat) (d : AddToCartRequest) (p : Product)
    (s : Int) (ex : CartItemRow)
    (hp : findProduct db d.productId = some p)
    (hact : p.status = .ACTIVE)
    (hs : availableStockFor db d.productId d.variantId = some s)
    (hq : ¬ d.quantity > s)
    (hpair : userPairItems db u d.productId d.variantId = [ex])
    (hnq : ¬ ex.quantity + d.quantity > s) :
    (addToCart db u d).2 = .ok ()
    ∧ ∃ item : CartItemRow,
        userPairItems (addToCart db u d).1 u d.productId d.variantId = [item]
        ∧ item.quantity = ex.quantity + d.quantity := by
  obtain ⟨variant, hvr, hsv⟩ := resolveCartVariant_of_avail db d.productId d.variantId p s hp hs
  have hact2 : ¬ p.status ≠ ProductStatus.ACTIVE := by simp [hact]
  have heval : addToCart db u d
      = cartUpsert (getOrCreateCart db u).1 (getOrCreateCart db u).2 d s
          (p.price - (p.discount.getD 0) + (variant.bind (fun v => v.priceDiff)).getD 0)
          p.deliveryCharge := by
    simp only [addToCart, hp, if_neg hact2, hvr, hsv, if_neg hq]
  cases hc : findCart db u with
  | none =>
    unfold userPairItems at hpair
    rw [hc] at hpair
    exact nomatch hpair
  | some c =>
    have hg : getOrCreateCart db u = (db, c) := by
      unfold getOrCreateCart
      rw [hc]
    have hfilter : db.cartItems.filter (fun ci =>
        ci.cartId == c.id && ci.productId == d.productId
          && ci.variantId == d.variantId) = [ex] := by
      unfold userPairItems at hpair
      rw [hc] at hpair
      exact hpair
    have hfind : db.cartItems.find? (fun ci =>
        ci.cartId == c.id && ci.productId == d.productId
          && ci.variantId == d.variantId) = some ex :=
      find?_of_filter_singleton hfilter
    have hup : addToCart db u d
        = ({ db with cartItems := db.cartItems.map (fun ci =>
              if ci.id == ex.id then
                { ci with
                  quantity := ex.quantity + d.quantity
                  priceSnapshot := p.price - (p.discount.getD 0)
                    + (variant.bind (fun v => v.priceDiff)).getD 0
                  deliveryChargeSnapshot := p.deliveryCharge }
              else ci) },
           .ok ()) := by
      rw [heval, hg]
      unfold cartUpsert
      rw [hfind]
      simp only []
      rw [if_neg hnq]
    rw [hup]
    refine ⟨rfl, ?_⟩
    refine ⟨{ ex with
              quantity := ex.quantity + d.quantity
              priceSnapshot := p.price - (p.discount.getD 0)
                + (variant.bind (fun v => v.priceDiff)).getD 0
              deliveryChargeSnapshot := p.deliveryCharge }, ?_, rfl⟩
    unfold userPairItems
    rw [show findCart ({ db with cartItems := db.cartItems.map (fun ci =>
          if ci.id == ex.id then
            { ci with
              quantity := ex.quantity + d.quantity
              priceSnapshot := p.price - (p.discount.getD 0)
                + (variant.bind (fun v => v.priceDiff)).getD 0
              deliveryChargeSnapshot := p.deliveryCharge }
          else ci) } : DB) u = some c from hc]
    simp only []
    rw [filter_map_congr]
    · rw [hfilter]
      rw [List.map_cons, List.map_nil]
      rw [if_pos (by simp)]
    · intro x
      by_cases hx : x.id == ex.id <;> simp [hx]

/-- C7 — Cart upsert on add: for every user and every (product,
variant-or-null) pair, two successive successful `addToCart` calls with
quantities `q1` and `q2` (both positive, with `q1 + q2` not exceeding the
available stock, the product ACTIVE, the variant — if given — belonging to
the product, and no existing cart row for the pair) leave exactly one
`CartItem` row for that pair, with quantity `q1 + q2`, not two rows. -/
theorem cart_upsert_accumulates (db : DB) (u : Nat) (d1 d2 : AddToCartRequest)
    (p : Product) (s : Int)
    (hsame1 : d2.productId = d1.productId) (hsame2 : d2.variantId = d1.variantId)
    (hp : findProduct db d1.productId = some p)
    (hact : p.status = .ACTIVE)
    (hs : availableStockFor db d1.productId d1.variantId = some s)
    (hq1 : 0 < d1.quantity) (hq2 : 0 < d2.quantity)
    (hsum : d1.quantity + d2.quantity ≤ s)
    (hempty : userPairItems db u d1.productId d1.variantId = [])
    (hfreshCI : ∀ ci ∈ db.cartItems, ci.cartId < db.nextId) :
    (addToCart db u d1).2 = .ok ()
    ∧ (addToCart (addToCart db u d1).1 u d2).2 = .ok ()
    ∧ ∃ item : CartItemRow,
        userPairItems (addToCart (addToCart db u d1).1 u d2).1 u
            d1.productId d1.variantId = [item]
        ∧ item.quantity = d1.quantity + d2.quantity := by
  have hq1n : ¬ d1.quantity > s := by omega
  obtain ⟨hok1, hprod1, hvar1, item1, hpair1, hqty1⟩ :=
    addToCart_fresh db u d1 p s hp hact hs hq1n hempty hfreshCI
  have hp2 : findProduct (addToCart db u d1).1 d2.productId = some p := by
    rw [hsame1, findProduct_congr (addToCart db u d1).1 db d1.productId hprod1]
    exact hp
  have hs2 : availableStockFor (addToCart db u d1).1 d2.productId d2.variantId
      = some s := by
    rw [hsame1, hsame2,
      availableStockFor_congr (addToCart db u d1).1 db d1.productId d1.variantId
        hprod1 hvar1]
    exact hs
  have hq2n : ¬ d2.quantity > s := by omega
  have hpair2 : userPairItems (addToCart db u d1).1 u d2.productId d2.variantId
      = [item1] := by
    rw [hsame1, hsame2]
    exact hpair1
  have hnq : ¬ item1.quantity + d2.quantity > s := by
    rw [hqty1]
    omega
  obtain ⟨hok2, item2, hpair3, hqty2⟩ :=
    addToCart_existing (addToCart db u d1).1 u d2 p s item1 hp2 hact hs2 hq2n
      hpair2 hnq
  refine ⟨hok1, hok2, item2, ?_, ?_⟩
  · rw [← hsame1, ← hsame2]
    exact hpair3
  · rw [hqty2, hqty1]

def dbW2a : DB :=
  { products :=
      [{ id := 1, shopId := 1, price := 100, discount := some 10,
         deliveryCharge := 5, stock := 10, status := .ACTIVE }]
    variants := []
    addresses := [{ id := 1, userId := 1 }]
    orders := [], carts := [], cartItems := [], nextId := 40 }

def reqW2 : CreateOrderRequest :=
  { items := [{ productId := 1, variantId := none, quantity := 2 }]
    shippingAddressId := 1 }

def dbW2b : DB :=
  { products :=
      [{ id := 1, shopId := 1, price := 100, discount := none,
         deliveryCharge := 5, stock := 10, status := .ACTIVE }]
    variants := [{ id := 4, productId := 1, priceDiff := none, stock := 8 }]
    addresses := [{ id := 1, userId := 1 }]
    orders := []
    carts := [{ id := 2, userId := 1 }]
    cartItems :=
      [{ id := 3, cartId := 2, productId := 1, variantId := some 4,
         quantity := 2, priceSnapshot := 90, deliveryChargeSnapshot := 5 }]
    nextId := 50 }

def creqW2 : CheckoutFromCartRequest := { shippingAddressId := 1 }

/-- The validated item details of the `dbW2a` scenario. -/
def detailsW2a : List ItemDetail :=
  [{ product :=
       { id := 1, shopId := 1, price := 100, discount := some 10,
         deliveryCharge := 5, stock := 10, status := .ACTIVE }
     variant := none
     quantity := 2 }]

def cW2b : CartRow := { id := 2, userId := 1 }

/-- The order `createOrder` produces in the `dbW2a` scenario. -/
def oW2a : OrderRow := createdOrderOf dbW2a 1 reqW2 "A" detailsW2a

/-- The order `checkoutFromCart` produces in the `dbW2b` scenario. -/
def oW2b : OrderRow :=
  checkoutOrderOf dbW2b 1 creqW2.shippingAddressId "B" (itemsOfCart dbW2b cW2b.id)

theorem okW2a : (createOrder dbW2a 1 reqW2 "A").2 = .ok oW2a :=
  congrArg Prod.snd
    (createOrder_eq_of dbW2a 1 reqW2 "A" { id := 1, userId := 1 } detailsW2a rfl rfl)

theorem itemsW2b_ne : itemsOfCart dbW2b cW2b.id ≠ [] :=
  List.cons_ne_nil _ _

theorem okW2b : (checkoutFromCart dbW2b 1 creqW2 "B").2 = .ok oW2b :=
  congrArg Prod.snd
    (checkoutFromCart_eq_of dbW2b 1 creqW2 "B" cW2b { id := 1, userId := 1 }
      rfl rfl itemsW2b_ne rfl)

theorem order_total_invariant_witness :
    (oW2a.totalAmount = oW2a.subtotalAmount - oW2a.discountAmount + oW2a.shippingFee
        + itemsDeliveryTotal oW2a.items
      ∧ oW2a.subtotalAmount = itemsSubtotal oW2a.items)
    ∧ (oW2b.totalAmount = oW2b.subtotalAmount - oW2b.discountAmount + oW2b.shippingFee
        + itemsDeliveryTotal oW2b.items
      ∧ oW2b.subtotalAmount = itemsSubtotal oW2b.items) := by
  have h := order_total_invariant dbW2a dbW2b 1 1 reqW2 creqW2 "A" "B" oW2a oW2b
    (by decide)
  exact ⟨h.1 okW2a, h.2 okW2b⟩

theorem cancel_restores_product_stock_witness :
    (cancelOrder (createOrder dbW2a 1 reqW2 "A").1 oW2a.id 1).2.isOk = true
    ∧ productStock (cancelOrder (createOrder dbW2a 1 reqW2 "A").1 oW2a.id 1).1 1
        = productStock dbW2a 1
    ∧ (cancelOrder (checkoutFromCart dbW2b 1 creqW2 "B").1 oW2b.id 1).2.isOk = true
    ∧ productStock (cancelOrder (checkoutFromCart dbW2b 1 creqW2 "B").1 oW2b.id 1).1 1
        = productStock dbW2b 1 := by
  have h := cancel_restores_product_stock dbW2a dbW2b 1 1 reqW2 creqW2 "A" "B"
    oW2a oW2b (by simp [dbW2a]) (by simp [dbW2b]) (by decide)
  exact ⟨(h.1 okW2a).1, (h.1 okW2a).2 1, (h.2 okW2b).1, (h.2 okW2b).2 1⟩

theorem cancel_never_touches_variant_stock_witness :
    (cancelOrder dbW2a 99 1).1.variants = dbW2a.variants
    ∧ (cancelOrder (checkoutFromCart dbW2b 1 creqW2 "B").1 oW2b.id 1).2.isOk = true
    ∧ variantStock (cancelOrder (checkoutFromCart dbW2b 1 creqW2 "B").1 oW2b.id 1).1 4
        = (variantStock dbW2b 4).map
            (fun s => s - cartVariantQty (getCartItemsForOrder dbW2b 1) 4)
    ∧ productStock (cancelOrder (checkoutFromCart dbW2b 1 creqW2 "B").1 oW2b.id 1).1 1
        = productStock dbW2b 1 := by
  have h := cancel_never_touches_variant_stock dbW2a dbW2b 99 1 1 creqW2 "B" oW2b
    (by simp [dbW2b]) (by decide)
  exact ⟨h.1, (h.2 okW2b).1, (h.2 okW2b).2.1 4, (h.2 okW2b).2.2 1⟩

theorem checkout_honors_snapshot_witness :
    List.Forall₂ (fun (oi : OrderItemRow) (ci : CartItemRow) =>
        oi.unitPrice = ci.priceSnapshot ∧ oi.deliveryCharge = ci.deliveryChargeSnapshot)
      oW2b.items (getCartItemsForOrder dbW2b 1) :=
  checkout_honors_snapshot dbW2b 1 creqW2 "B" oW2b (by decide) okW2b

def dbW5 : DB :=
  { products := []
    variants := []
    addresses := []
    orders :=
      [{ id := 1, userId := 1, orderNumber := "S", status := .SHIPPED,
         subtotalAmount := 0, discountAmount := 0, shippingFee := 0,
         totalAmount := 0, shippingAddressId := 1, items := [] },
       { id := 2, userId := 1, orderNumber := "C", status := .CANCELLED,
         subtotalAmount := 0, discountAmount := 0, shippingFee := 0,
         totalAmount := 0, shippingAddressId := 1, items := [] },
       { id := 3, userId := 2, orderNumber := "P", status := .PENDING,
         subtotalAmount := 0, discountAmount := 0, shippingFee := 0,
         totalAmount := 0, shippingAddressId := 1, items := [] },
       { id := 4, userId := 1, orderNumber := "D", status := .DELIVERED,
         subtotalAmount := 0, discountAmount := 0, shippingFee := 0,
         totalAmount := 0, shippingAddressId := 1, items := [] }]
    carts := [], cartItems := [], nextId := 10 }

theorem cancelOrder_terminal_immutable_witness :
    cancelOrder dbW5 99 1 = (dbW5, .error .orderNotFound)
    ∧ cancelOrder dbW5 3 1 = (dbW5, .error .notOrderOwner)
    ∧ cancelOrder dbW5 2 1 = (dbW5, .error .orderAlreadyCancelled)
    ∧ cancelOrder dbW5 1 1 = (dbW5, .error .orderShippedOrDelivered)
    ∧ cancelOrder dbW5 4 1 = (dbW5, .error .orderShippedOrDelivered) := by
  refine ⟨?_, ?_, ?_, ?_, ?_⟩
  · exact (cancelOrder_terminal_immutable dbW5 99 1).1 rfl
  · exact ((cancelOrder_terminal_immutable dbW5 3 1).2 _ rfl).1 (by decide)
  · exact ((cancelOrder_terminal_immutable dbW5 2 1).2 _ rfl).2.1 rfl rfl
  · exact ((cancelOrder_terminal_immutable dbW5 1 1).2 _ rfl).2.2 rfl (Or.inl rfl)
  · exact ((cancelOrder_terminal_immutable dbW5 4 1).2 _ rfl).2.2 rfl (Or.inr rfl)

def dbW3 : DB :=
  { products :=
      [{ id := 1, shopId := 1, price := 100, discount := none,
         deliveryCharge := 0, stock := 10, status := .ACTIVE }]
    variants := [{ id := 5, productId := 1, priceDiff := none, stock := 1 }]
    addresses := [{ id := 1, userId := 1 }]
    orders := [], carts := [], cartItems := [], nextId := 20 }

theorem createOrder_variant_checks_witness :
    createOrder dbW3 1
        { items := [{ productId := 1, variantId := some 6, quantity := 2 }]
          shippingAddressId := 1 } "N"
      = (dbW3, .error (.variantNotFound 6))
    ∧ createOrder dbW3 1
        { items := [{ productId := 1, variantId := some 5, quantity := 2 }]
          shippingAddressId := 1 } "N"
      = (dbW3, .error (.insufficientVariantStock 5)) := by
  constructor
  · exact (createOrder_variant_checks dbW3 1 1 "N"
      { productId := 1, variantId := some 6, quantity := 2 }
      { id := 1, shopId := 1, price := 100, discount := none,
        deliveryCharge := 0, stock := 10, status := .ACTIVE }
      6 { id := 1, userId := 1 } rfl rfl rfl (by decide)).1 rfl
  · exact (createOrder_variant_checks dbW3 1 1 "N"
      { productId := 1, variantId := some 5, quantity := 2 }
      { id := 1, shopId := 1, price := 100, discount := none,
        deliveryCharge := 0, stock := 10, status := .ACTIVE }
      5 { id := 1, userId := 1 } rfl rfl rfl (by decide)).2
      { id := 5, productId := 1, priceDiff := none, stock := 1 } rfl (by decide)

def dbW7 : DB :=
  { products :=
      [{ id := 1, shopId := 1, price := 100, discount := none,
         deliveryCharge := 0, stock := 10, status := .ACTIVE }]
    variants := []
    addresses := []
    orders := [], carts := [], cartItems := [], nextId := 20 }

theorem cart_upsert_accumulates_witness :
    (addToCart dbW7 1 { productId := 1, variantId := none, quantity := 2 }).2 = .ok ()
    ∧ (addToCart
        (addToCart dbW7 1 { productId := 1, variantId := none, quantity := 2 }).1 1
        { productId := 1, variantId := none, quantity := 3 }).2 = .ok ()
    ∧ ∃ item : CartItemRow,
        userPairItems
          (addToCart
            (addToCart dbW7 1 { productId := 1, variantId := none, quantity := 2 }).1 1
            { productId := 1, variantId := none, quantity := 3 }).1 1 1 none = [item]
        ∧ item.quantity = 2 + 3 := by
  have h := cart_upsert_accumulates dbW7 1
    { productId := 1, variantId := none, quantity := 2 }
    { productId := 1, variantId := none, quantity := 3 }
    { id := 1, shopId := 1, price := 100, discount := none,
      deliveryCharge := 0, stock := 10, status := .ACTIVE }
    10 rfl rfl rfl rfl rfl (by decide) (by decide) (by decide) rfl
    (by simp [dbW7])
  exact h

theorem validateCart_readonly_witness :
    (validateCartForCheckout dbW2b 1).1 = dbW2b
    ∧ (validateCartForCheckout dbC8 1).1.carts
        = dbC8.carts ++ [{ id := dbC8.nextId, userId := 1 }] := by
  constructor
  · exact (validateCart_readonly_except_lazy_cart dbW2b 1).2.2.2.2.1 cW2b rfl
  · exact (validateCart_readonly_except_lazy_cart dbC8 1).2.2.2.2.2 rfl

theorem orderNumber_format_witness :
    matchesRelaxedOrderNumberPattern
      (generateOrderNumberChars 2025 10 11
        [(18 : Fin 36), (0 : Fin 36), (35 : Fin 36), (9 : Fin 36), (10 : Fin 36),
         (11 : Fin 36), (1 : Fin 36)]) = true
    ∧ matchesOrderNumberPattern
      (generateOrderNumberChars 2025 10 11
        [(18 : Fin 36), (0 : Fin 36), (35 : Fin 36), (9 : Fin 36), (10 : Fin 36),
         (11 : Fin 36), (1 : Fin 36)]) = true := by
  have h := orderNumber_format 2025 10 11
    [(18 : Fin 36), (0 : Fin 36), (35 : Fin 36), (9 : Fin 36), (10 : Fin 36),
     (11 : Fin 36), (1 : Fin 36)]
    (by decide) (by decide) (by decide)
  exact ⟨h.1, h.2 (by decide)⟩
